import Mathlib

/-!
Shallow embedding of the Exquisite Corpse game session engine
(`src/exquisite_corpse_bot.py`).

The engine state is a `Game` dataclass per channel, two process-wide router
maps (`player_games`, `pending_responses`), and a SQLite-backed store modelled
as an association list of rows keyed by channel id.  Each bot operation
(`cmd_start`, `cmd_join`, `cmd_abandon`, the DM handler `on_message`, the
periodic `timeout_checker`) is translated to a pure function on a `BotState`,
with external nondeterminism (channel resolution, user fetch) passed in as an
`Env` record.  Times are natural-number seconds; Python truthiness on
`Optional[int]` fields (where the integer 0 is falsy, like `None`) is
translated explicitly.
-/

namespace ExquisiteCorpse

/-- Association-list lookup keyed by `Nat` (first match wins). -/
def alookup {α : Type} (l : List (Nat × α)) (k : Nat) : Option α :=
  match l with
  | [] => none
  | p :: rest => if p.1 = k then some p.2 else alookup rest k

/-- Remove every binding of key `k` (models `dict.pop(k, None)`). -/
def aerase {α : Type} : List (Nat × α) → Nat → List (Nat × α)
  | [], _ => []
  | p :: rest, k => if p.1 = k then aerase rest k else p :: aerase rest k

/-- Upsert: models `dict[k] = v` / SQL `INSERT OR REPLACE`. -/
def ainsert {α : Type} (l : List (Nat × α)) (k : Nat) (v : α) : List (Nat × α) :=
  aerase l k ++ [(k, v)]

/-- Python `str.split()` token runs: maximal whitespace-free runs of the
character list, accumulating the current token in reverse. -/
def split_runs : List Char → List Char → List (List Char)
  | [], cur => if cur = [] then [] else [cur.reverse]
  | c :: rest, cur =>
    if c.isWhitespace then
      if cur = [] then split_runs rest [] else cur.reverse :: split_runs rest []
    else split_runs rest (c :: cur)

/-- Python `str.split()`: split on whitespace runs, dropping empty tokens. -/
def split_ws (s : String) : List String :=
  (split_runs s.data []).map String.mk

/-- Python `str.strip()`: drop leading and trailing whitespace. -/
def py_strip (s : String) : String :=
  String.mk (((s.data.dropWhile Char.isWhitespace).reverse.dropWhile Char.isWhitespace).reverse)

/-- `count_words` helper (source line 287). -/
def count_words (text : String) : Nat :=
  (split_ws text).length

/-- The `Game` dataclass (source lines 130-213), persisted fields only
(`_skip_init` is a constructor flag, not state). -/
structure Game where
  channel_id : Nat
  starter_id : Nat
  first_words : String
  words_per_turn : Nat
  total_lines : Nat
  contributions : List String
  contributors : List Nat
  player_a : Option Nat
  player_b : Option Nat
  status : String
  last_activity : Nat
  current_turn : Nat
deriving Repr, DecidableEq

namespace Game

/-- `Game.__post_init__` path: dataclass construction with words supplied. -/
def mk_new (channel_id starter_id : Nat) (first_words : String)
    (words_per_turn total_lines now : Nat) : Game :=
  { channel_id := channel_id
    starter_id := starter_id
    first_words := first_words
    words_per_turn := words_per_turn
    total_lines := total_lines
    contributions := [first_words]
    contributors := [starter_id]
    player_a := some starter_id
    player_b := none
    status := "open"
    last_activity := now
    current_turn := 1 }

/-- `total_turns` property (lines 154-156). -/
def total_turns (g : Game) : Nat :=
  g.total_lines * 2

/-- `current_player` property (lines 158-162). -/
def current_player (g : Game) : Option Nat :=
  if g.status = "open" then none
  else if g.current_turn % 2 = 0 then g.player_a else g.player_b

/-- `last_word` property (lines 164-168), `Option`-valued. -/
def last_word (g : Game) : Option String :=
  match g.contributions.getLast? with
  | none => none
  | some c => (split_ws c).getLast?

/-- `lines_complete` property (lines 170-172). -/
def lines_complete (g : Game) : Nat :=
  g.contributions.length / 2

/-- `add_contribution` (lines 174-181); `now` is the `datetime.utcnow()` call. -/
def add_contribution (g : Game) (user_id : Nat) (words : String) (now : Nat) : Game :=
  let g1 : Game :=
    { g with contributions := g.contributions ++ [words]
             contributors := g.contributors ++ [user_id]
             current_turn := g.current_turn + 1
             last_activity := now }
  if g1.total_turns ≤ g1.current_turn then { g1 with status := "complete" } else g1

/-- `get_poem` (lines 183-190): the `for i in range(0, len, 2)` loop. -/
def get_poem (g : Game) : String :=
  let n := g.contributions.length
  let lines := (List.range' 0 ((n + 1) / 2) 2).map (fun i =>
    if i + 1 < n then
      g.contributions.getD i "" ++ " / " ++ g.contributions.getD (i + 1) ""
    else g.contributions.getD i "")
  String.intercalate "\n" lines

/-- `get_unique_contributors` (lines 192-197). -/
def get_unique_contributors (g : Game) : List Nat :=
  g.contributors.foldl (fun seen uid => if uid ∈ seen then seen else seen ++ [uid]) []

/-- `timeout_current_player` (lines 199-203). -/
def timeout_current_player (g : Game) : Game :=
  if g.current_turn % 2 = 0 then { g with player_a := none }
  else { g with player_b := none }

/-- `slot_is_open` (lines 205-213). -/
def slot_is_open (g : Game) : Bool :=
  if g.status = "pending" then false
  else if g.status = "open" then true
  else if g.status = "active" then
    (g.current_turn % 2 = 0 ∧ g.player_a = none) ∨
    (g.current_turn % 2 = 1 ∧ g.player_b = none)
  else false

end Game

/-- One row of the `games` table (lines 36-51); serialization of lists and
timestamps is modelled at logical type since `json.dumps`/`loads` and
`isoformat`/`fromisoformat` are mutually inverse on these values. -/
structure Row where
  channel_id : Nat
  starter_id : Nat
  first_words : String
  words_per_turn : Nat
  total_lines : Nat
  contributions : List String
  contributors : List Nat
  player_a : Option Nat
  player_b : Option Nat
  status : String
  last_activity : Nat
  current_turn : Nat
deriving Repr, DecidableEq

/-- The tuple bound in `save_game`'s INSERT (lines 68-81). -/
def to_row (g : Game) : Row :=
  { channel_id := g.channel_id
    starter_id := g.starter_id
    first_words := g.first_words
    words_per_turn := g.words_per_turn
    total_lines := g.total_lines
    contributions := g.contributions
    contributors := g.contributors
    player_a := g.player_a
    player_b := g.player_b
    status := g.status
    last_activity := g.last_activity
    current_turn := g.current_turn }

/-- `save_game` (lines 57-84): INSERT OR REPLACE keyed by `channel_id`. -/
def save_game (db : List (Nat × Row)) (g : Game) : List (Nat × Row) :=
  ainsert db g.channel_id (to_row g)

/-- The field assignments in `load_all_games`'s row loop (lines 99-113). -/
def row_to_game (r : Row) : Game :=
  { channel_id := r.channel_id
    starter_id := r.starter_id
    first_words := r.first_words
    words_per_turn := r.words_per_turn
    total_lines := r.total_lines
    contributions := r.contributions
    contributors := r.contributors
    player_a := r.player_a
    player_b := r.player_b
    status := r.status
    last_activity := r.last_activity
    current_turn := r.current_turn }

/-- `load_all_games` (lines 87-116): `SELECT * WHERE status != 'complete'`,
keyed by each row's `channel_id`. -/
def load_all_games (db : List (Nat × Row)) : List (Nat × Game) :=
  (db.filter (fun p => p.2.status ≠ "complete")).map
    (fun p => (p.2.channel_id, row_to_game p.2))

/-- `delete_game` (lines 119-125). -/
def delete_game (db : List (Nat × Row)) (channel_id : Nat) : List (Nat × Row) :=
  aerase db channel_id

/-- Process state: `bot.games`, `bot.player_games`, `bot.pending_responses`
(lines 226-228) plus the database. -/
structure BotState where
  games : List (Nat × Game)
  player_games : List (Nat × Nat)
  pending_responses : List (Nat × Nat)
  db : List (Nat × Row)
deriving Repr, DecidableEq

/-- External nondeterminism: whether `bot.get_channel` resolves the shared
channel and whether `get_user`/`fetch_user` finds the next player. -/
structure Env where
  channelFound : Bool
  userFound : Bool
deriving Repr, DecidableEq

/-- The user-visible outcome category of one operation. -/
inductive Reply
  | alreadyInGame
  | channelBusy
  | started
  | startedPending
  | wordCountMismatch
  | noGame
  | pendingWait
  | alreadyBound
  | slotUnavailable
  | selfPlay
  | joined
  | tookOver
  | joinedNoWords
  | noPendingTurn
  | staleGame
  | notYourTurn
  | acceptedWords
  | acceptedTurn
  | abandoned
  | notInGame
deriving Repr, DecidableEq

/-- The `for uid in [game.player_a, game.player_b]: if uid:` cleanup loop body
in `post_completed_poem` (lines 335-338); Python truthiness makes both `None`
and `0` skip. -/
def clean_player (s : BotState) (uid : Option Nat) : BotState :=
  match uid with
  | none => s
  | some u =>
    if u = 0 then s
    else { s with player_games := aerase s.player_games u
                  pending_responses := aerase s.pending_responses u }

/-- `post_completed_poem` (lines 319-341): if the channel does not resolve the
function returns before any cleanup. -/
def post_completed_poem (env : Env) (s : BotState) (g : Game) : BotState :=
  if env.channelFound then
    let s1 := clean_player (clean_player s g.player_a) g.player_b
    { s1 with games := aerase s1.games g.channel_id
              db := delete_game s1.db g.channel_id }
  else s

/-- `prompt_next_player` (lines 291-316): returns early when there is no
truthy current player or the user cannot be fetched; otherwise marks the
player as awaiting a reply (the DM attempt itself has no state effect). -/
def prompt_next_player (env : Env) (s : BotState) (g : Game) : BotState :=
  match g.current_player with
  | none => s
  | some p =>
    if p = 0 then s
    else if env.userFound then
      { s with pending_responses := ainsert s.pending_responses p g.channel_id }
    else s

/-- `cmd_start` with words (lines 399-425). -/
def start_open_game (s : BotState) (u c : Nat) (w : String)
    (lines wordcount now : Nat) : BotState × Reply :=
  if count_words w ≠ wordcount then (s, Reply.wordCountMismatch)
  else
    let g := Game.mk_new c u w wordcount lines now
    ({ s with games := ainsert s.games c g
              player_games := ainsert s.player_games u c
              db := save_game s.db g }, Reply.started)

/-- `cmd_start` without words (lines 427-463): creates a `pending` game. -/
def start_pending_game (s : BotState) (u c : Nat)
    (lines wordcount now : Nat) : BotState × Reply :=
  let g : Game :=
    { channel_id := c
      starter_id := u
      first_words := ""
      words_per_turn := wordcount
      total_lines := lines
      contributions := []
      contributors := []
      player_a := some u
      player_b := none
      status := "pending"
      last_activity := now
      current_turn := 1 }
  ({ s with games := ainsert s.games c g
            player_games := ainsert s.player_games u c
            pending_responses := ainsert s.pending_responses u c
            db := save_game s.db g }, Reply.startedPending)

/-- The `existing and existing.status != "complete"` guard (lines 391-392);
a `Game` object is always truthy in Python. -/
def channel_busy (s : BotState) (c : Nat) : Bool :=
  match alookup s.games c with
  | some ex => ex.status ≠ "complete"
  | none => false

/-- `cmd_start` (lines 378-463).  `if words:` is Python truthiness, so an
empty string takes the pending path. -/
def cmd_start (s : BotState) (u c : Nat) (words : Option String)
    (lines wordcount now : Nat) : BotState × Reply :=
  if (alookup s.player_games u).isSome then (s, Reply.alreadyInGame)
  else if channel_busy s c then (s, Reply.channelBusy)
  else match words with
    | some w =>
      if w = "" then start_pending_game s u c lines wordcount now
      else start_open_game s u c w lines wordcount now
    | none => start_pending_game s u c lines wordcount now

/-- `cmd_join`'s "in another game" guard (lines 484-491). -/
def bound_elsewhere (s : BotState) (u c : Nat) : Bool :=
  match alookup s.player_games u with
  | some c2 => c2 ≠ c
  | none => false

/-- Slot assignment shared by `cmd_join`'s accepting branches (lines 518-520,
537-540, 558-564). -/
def join_assign_slot (g : Game) (u : Nat) : Game :=
  if g.status = "open" then { g with player_b := some u, status := "active" }
  else if g.current_turn % 2 = 0 then { g with player_a := some u }
  else { g with player_b := some u }

/-- `cmd_join` with words (lines 508-555): validate count, fill the slot,
append the contribution, then either finalize or prompt the next player. -/
def join_with_words (env : Env) (s : BotState) (u c : Nat) (g : Game)
    (w : String) (now : Nat) : BotState × Reply :=
  if count_words w ≠ g.words_per_turn then (s, Reply.wordCountMismatch)
  else
    let reply := if g.status = "open" then Reply.joined else Reply.tookOver
    let g2 := (join_assign_slot g u).add_contribution u w now
    let s1 : BotState :=
      { s with games := ainsert s.games c g2
               player_games := ainsert s.player_games u c
               db := save_game s.db g2 }
    if g2.status = "complete" then (post_completed_poem env s1 g2, reply)
    else (prompt_next_player env s1 g2, reply)

/-- `cmd_join` without words (lines 557-589): fill the slot, mark awaiting. -/
def join_fill_no_words (s : BotState) (u c : Nat) (g : Game) : BotState × Reply :=
  let g1 := join_assign_slot g u
  ({ s with games := ainsert s.games c g1
            player_games := ainsert s.player_games u c
            pending_responses := ainsert s.pending_responses u c
            db := save_game s.db g1 }, Reply.joinedNoWords)

/-- `cmd_join` (lines 466-589). -/
def cmd_join (env : Env) (s : BotState) (u c : Nat) (words : Option String)
    (now : Nat) : BotState × Reply :=
  match alookup s.games c with
  | none => (s, Reply.noGame)
  | some g =>
    if g.status = "complete" then (s, Reply.noGame)
    else if g.status = "pending" then (s, Reply.pendingWait)
    else if bound_elsewhere s u c then (s, Reply.alreadyBound)
    else if !g.slot_is_open then (s, Reply.slotUnavailable)
    else if g.status = "open" ∧ g.player_a = some u then (s, Reply.selfPlay)
    else match words with
      | some w =>
        if w = "" then join_fill_no_words s u c g
        else join_with_words env s u c g w now
      | none => join_fill_no_words s u c g

/-- `cmd_abandon` (lines 630-657): pop both router entries, clear whichever
slots equal the caller, persist. -/
def cmd_abandon (s : BotState) (u : Nat) : BotState × Reply :=
  match alookup s.player_games u with
  | none => (s, Reply.notInGame)
  | some c =>
    let s1 : BotState :=
      { s with player_games := aerase s.player_games u
               pending_responses := aerase s.pending_responses u }
    match alookup s.games c with
    | none => (s1, Reply.abandoned)
    | some g =>
      let g1 : Game :=
        { g with player_a := if g.player_a = some u then none else g.player_a
                 player_b := if g.player_b = some u then none else g.player_b }
      ({ s1 with games := ainsert s1.games c g1
                 db := save_game s1.db g1 }, Reply.abandoned)

/-- The DM handler `on_message` (lines 662-737), free-text path. -/
def on_message (env : Env) (s : BotState) (u : Nat) (content : String)
    (now : Nat) : BotState × Reply :=
  match alookup s.pending_responses u with
  | none => (s, Reply.noPendingTurn)
  | some c =>
    match alookup s.games c with
    | none =>
      ({ s with pending_responses := aerase s.pending_responses u }, Reply.staleGame)
    | some g =>
      let words := py_strip content
      if count_words words ≠ g.words_per_turn then (s, Reply.wordCountMismatch)
      else if g.status = "pending" then
        let g1 : Game :=
          { g with first_words := words
                   contributions := [words]
                   contributors := [u]
                   status := "open"
                   last_activity := now }
        ({ s with pending_responses := aerase s.pending_responses u
                  games := ainsert s.games c g1
                  db := save_game s.db g1 }, Reply.acceptedWords)
      else if g.current_player ≠ some u then
        ({ s with pending_responses := aerase s.pending_responses u }, Reply.notYourTurn)
      else
        let g1 := g.add_contribution u words now
        let s1 : BotState :=
          { s with pending_responses := aerase s.pending_responses u
                   games := ainsert s.games c g1
                   db := save_game s.db g1 }
        if g1.status = "complete" then (post_completed_poem env s1 g1, Reply.acceptedTurn)
        else (prompt_next_player env s1 g1, Reply.acceptedTurn)

/-- Inactivity threshold: `timedelta(hours=2)` in seconds (line 251). -/
def timeout_threshold : Nat := 7200

/-- One iteration of the `timeout_checker` loop body (lines 253-270) for a
single game: returns the (possibly vacated) game and the vacated identity, if
any.  `if not timed_out_player:` skips both `None` and the falsy id `0`. -/
def sweep_game (now : Nat) (g : Game) : Game × Option Nat :=
  if g.status ≠ "active" then (g, none)
  else if now - g.last_activity ≤ timeout_threshold then (g, none)
  else
    match g.current_player with
    | none => (g, none)
    | some p =>
      if p = 0 then (g, none)
      else (g.timeout_current_player, some p)

/-- Router cleanup for one swept game: `pop(timed_out_player, None)`
(lines 269-270). -/
def erase_step (m : List (Nat × Nat)) (q : Nat × (Game × Option Nat)) :
    List (Nat × Nat) :=
  match q.2.2 with
  | some uid => aerase m uid
  | none => m

/-- `save_game(game)` for one swept game (line 266). -/
def save_step (d : List (Nat × Row)) (q : Nat × (Game × Option Nat)) :
    List (Nat × Row) :=
  match q.2.2 with
  | some _ => save_game d q.2.1
  | none => d

/-- `timeout_checker` (lines 248-279): iterate over a snapshot of
`bot.games.items()`; mutated games are saved and their vacated identity is
popped from both router maps. -/
def timeout_checker (s : BotState) (now : Nat) : BotState :=
  { games := (s.games.map (fun p => (p.1, sweep_game now p.2))).map
      (fun p => (p.1, p.2.1))
    player_games := (s.games.map (fun p => (p.1, sweep_game now p.2))).foldl
      erase_step s.player_games
    pending_responses := (s.games.map (fun p => (p.1, sweep_game now p.2))).foldl
      erase_step s.pending_responses
    db := (s.games.map (fun p => (p.1, sweep_game now p.2))).foldl
      save_step s.db }

/-! ### Association-list lemmas -/

theorem alookup_nil {α : Type} (k : Nat) : alookup ([] : List (Nat × α)) k = none := rfl

theorem alookup_cons {α : Type} (p : Nat × α) (l : List (Nat × α)) (k : Nat) :
    alookup (p :: l) k = if p.1 = k then some p.2 else alookup l k := rfl

theorem alookup_append_none {α : Type} {l1 : List (Nat × α)} (l2 : List (Nat × α))
    {k : Nat} (h : alookup l1 k = none) : alookup (l1 ++ l2) k = alookup l2 k := by
  induction l1 with
  | nil => rfl
  | cons p rest ih =>
    rw [alookup_cons] at h
    by_cases hp : p.1 = k
    · simp [hp] at h
    · simp only [hp, if_false] at h
      simpa [alookup_cons, hp] using ih h

theorem alookup_aerase_self {α : Type} (l : List (Nat × α)) (k : Nat) :
    alookup (aerase l k) k = none := by
  induction l with
  | nil => rfl
  | cons p rest ih =>
    by_cases hp : p.1 = k
    · simpa [aerase, hp] using ih
    · simpa [aerase, alookup_cons, hp] using ih

theorem alookup_aerase_ne {α : Type} (l : List (Nat × α)) {k k' : Nat} (h : k' ≠ k) :
    alookup (aerase l k) k' = alookup l k' := by
  induction l with
  | nil => rfl
  | cons p rest ih =>
    by_cases hp : p.1 = k
    · have hk : ¬ k = k' := fun e => h e.symm
      simp [aerase, hp, alookup_cons, hk, ih]
    · simp [aerase, hp, alookup_cons, ih]

theorem alookup_ainsert_self {α : Type} (l : List (Nat × α)) (k : Nat) (v : α) :
    alookup (ainsert l k v) k = some v := by
  rw [ainsert, alookup_append_none _ (alookup_aerase_self l k)]
  simp [alookup_cons]

theorem alookup_append {α : Type} (l1 l2 : List (Nat × α)) (k : Nat) :
    alookup (l1 ++ l2) k =
      match alookup l1 k with
      | some v => some v
      | none => alookup l2 k := by
  induction l1 with
  | nil => simp [alookup_nil]
  | cons p rest ih =>
    by_cases hp : p.1 = k
    · simp [alookup_cons, hp]
    · simpa [alookup_cons, hp] using ih

theorem alookup_ainsert_ne {α : Type} (l : List (Nat × α)) {k k' : Nat} (v : α)
    (h : k' ≠ k) : alookup (ainsert l k v) k' = alookup l k' := by
  have hk : ¬ k = k' := fun e => h e.symm
  rw [ainsert, alookup_append, alookup_aerase_ne l h]
  cases hl : alookup l k' with
  | some w => rfl
  | none => simp [alookup_cons, hk, alookup_nil]

theorem alookup_ainsert {α : Type} (l : List (Nat × α)) (k k' : Nat) (v : α) :
    alookup (ainsert l k v) k' = if k' = k then some v else alookup l k' := by
  by_cases h : k' = k
  · simp [h, alookup_ainsert_self]
  · simp [h, alookup_ainsert_ne l v h]

theorem mem_aerase {α : Type} {p : Nat × α} {l : List (Nat × α)} {k : Nat}
    (h : p ∈ aerase l k) : p ∈ l := by
  induction l with
  | nil => simp [aerase] at h
  | cons q rest ih =>
    by_cases hq : q.1 = k
    · rw [aerase, if_pos hq] at h
      exact List.mem_cons_of_mem q (ih h)
    · rw [aerase, if_neg hq] at h
      rcases List.mem_cons.mp h with h1 | h2
      · exact h1 ▸ List.mem_cons_self q rest
      · exact List.mem_cons_of_mem q (ih h2)

theorem mem_ainsert {α : Type} {p : Nat × α} {l : List (Nat × α)} {k : Nat} {v : α}
    (h : p ∈ ainsert l k v) : p ∈ l ∨ p = (k, v) := by
  rcases List.mem_append.mp h with h1 | h2
  · exact Or.inl (mem_aerase h1)
  · exact Or.inr (by simpa using h2)

theorem alookup_aerase {α : Type} (l : List (Nat × α)) (k k' : Nat) :
    alookup (aerase l k) k' = if k' = k then none else alookup l k' := by
  by_cases h : k' = k
  · simp [h, alookup_aerase_self]
  · simp [h, alookup_aerase_ne l h]

theorem alookup_mem {α : Type} {l : List (Nat × α)} {k : Nat} {v : α}
    (h : alookup l k = some v) : (k, v) ∈ l := by
  induction l with
  | nil => simp [alookup_nil] at h
  | cons p rest ih =>
    rw [alookup_cons] at h
    by_cases hp : p.1 = k
    · rw [if_pos hp] at h
      have : p = (k, v) := by
        cases p
        simp only [Option.some_inj] at h
        simp_all
      exact this ▸ List.mem_cons_self p rest
    · rw [if_neg hp] at h
      exact List.mem_cons_of_mem p (ih h)

theorem alookup_eq_none_of_keys_ne {α : Type} {l : List (Nat × α)} {k : Nat}
    (h : ∀ p ∈ l, p.1 ≠ k) : alookup l k = none := by
  induction l with
  | nil => rfl
  | cons p rest ih =>
    rw [alookup_cons, if_neg (h p (List.mem_cons_self p rest))]
    exact ih (fun q hq => h q (List.mem_cons_of_mem p hq))

theorem mem_aerase_key_ne {α : Type} {p : Nat × α} {l : List (Nat × α)} {k : Nat}
    (h : p ∈ aerase l k) : p.1 ≠ k := by
  induction l with
  | nil => simp [aerase] at h
  | cons q rest ih =>
    by_cases hq : q.1 = k
    · rw [aerase, if_pos hq] at h
      exact ih h
    · rw [aerase, if_neg hq] at h
      rcases List.mem_cons.mp h with h1 | h2
      · exact h1 ▸ hq
      · exact ih h2

theorem alookup_map_values {α β : Type} (l : List (Nat × α)) (f : α → β) (k : Nat) :
    alookup (l.map (fun p => (p.1, f p.2))) k = (alookup l k).map f := by
  induction l with
  | nil => rfl
  | cons p rest ih =>
    by_cases hp : p.1 = k
    · simp [alookup_cons, hp]
    · simpa [alookup_cons, hp] using ih

theorem forall_mem_ainsert {α : Type} {P : Nat × α → Prop} {l : List (Nat × α)}
    {k : Nat} {v : α} (h : ∀ p ∈ l, P p) (hv : P (k, v)) :
    ∀ p ∈ ainsert l k v, P p := by
  intro p hp
  rcases mem_ainsert hp with h1 | h2
  · exact h p h1
  · exact h2 ▸ hv

theorem forall_mem_aerase {α : Type} {P : Nat × α → Prop} {l : List (Nat × α)}
    {k : Nat} (h : ∀ p ∈ l, P p) : ∀ p ∈ aerase l k, P p :=
  fun p hp => h p (mem_aerase hp)

/-! ### State projection lemmas -/

theorem games_clean_player (s : BotState) (uid : Option Nat) :
    (clean_player s uid).games = s.games := by
  unfold clean_player
  cases uid with
  | none => rfl
  | some u => by_cases hu : u = 0 <;> simp [hu]

theorem db_clean_player (s : BotState) (uid : Option Nat) :
    (clean_player s uid).db = s.db := by
  unfold clean_player
  cases uid with
  | none => rfl
  | some u => by_cases hu : u = 0 <;> simp [hu]

theorem games_prompt_next_player (env : Env) (s : BotState) (g : Game) :
    (prompt_next_player env s g).games = s.games := by
  unfold prompt_next_player
  cases g.current_player with
  | none => rfl
  | some p =>
    by_cases hp : p = 0
    · simp [hp]
    · by_cases hu : env.userFound <;> simp [hp, hu]

theorem player_games_prompt_next_player (env : Env) (s : BotState) (g : Game) :
    (prompt_next_player env s g).player_games = s.player_games := by
  unfold prompt_next_player
  cases g.current_player with
  | none => rfl
  | some p =>
    by_cases hp : p = 0
    · simp [hp]
    · by_cases hu : env.userFound <;> simp [hp, hu]

theorem db_prompt_next_player (env : Env) (s : BotState) (g : Game) :
    (prompt_next_player env s g).db = s.db := by
  unfold prompt_next_player
  cases g.current_player with
  | none => rfl
  | some p =>
    by_cases hp : p = 0
    · simp [hp]
    · by_cases hu : env.userFound <;> simp [hp, hu]

theorem games_post_completed_poem (env : Env) (s : BotState) (g : Game) :
    (post_completed_poem env s g).games =
      if env.channelFound then aerase s.games g.channel_id else s.games := by
  unfold post_completed_poem
  by_cases hc : env.channelFound <;> simp [hc, games_clean_player]

theorem db_post_completed_poem (env : Env) (s : BotState) (g : Game) :
    (post_completed_poem env s g).db =
      if env.channelFound then delete_game s.db g.channel_id else s.db := by
  unfold post_completed_poem
  by_cases hc : env.channelFound <;> simp [hc, db_clean_player]

/-! ### Poem assembly (claim C8) -/

/-- Modelled from the spec: line pairing as §4.1 words it — contributions at
indices (0,1), (2,3), … joined pairwise with the separator, an unpaired
trailing contribution on its own line. -/
def pair_lines : List String → List String
  | [] => []
  | [x] => [x]
  | x :: y :: rest => (x ++ " / " ++ y) :: pair_lines rest

theorem poem_loop : ∀ l : List String,
    (List.range' 0 ((l.length + 1) / 2) 2).map (fun i =>
      if i + 1 < l.length then l.getD i "" ++ " / " ++ l.getD (i + 1) ""
      else l.getD i "") = pair_lines l
  | [] => by simp [pair_lines]
  | [x] => by simp [pair_lines]
  | x :: y :: rest => by
    have ih := poem_loop rest
    have hlen : (x :: y :: rest).length = rest.length + 2 := by simp
    have hdiv : ((x :: y :: rest).length + 1) / 2 = (rest.length + 1) / 2 + 1 := by
      rw [hlen]
      omega
    rw [hdiv, List.range'_succ]
    have hshift : List.range' (0 + 2) ((rest.length + 1) / 2) 2 =
        (List.range' 0 ((rest.length + 1) / 2) 2).map (fun i => 2 + i) := by
      rw [List.map_add_range']
    have harg : ∀ i : Nat,
        (if 2 + i + 1 < (x :: y :: rest).length then
          (x :: y :: rest).getD (2 + i) "" ++ " / " ++ (x :: y :: rest).getD (2 + i + 1) ""
        else (x :: y :: rest).getD (2 + i) "") =
        (if i + 1 < rest.length then rest.getD i "" ++ " / " ++ rest.getD (i + 1) ""
        else rest.getD i "") := by
      intro i
      have h1 : 2 + i + 1 < (x :: y :: rest).length ↔ i + 1 < rest.length := by
        rw [hlen]; omega
      have h2 : (x :: y :: rest).getD (2 + i) "" = rest.getD i "" := by
        have : 2 + i = i + 2 := by omega
        rw [this]
        rfl
      have h3 : (x :: y :: rest).getD (2 + i + 1) "" = rest.getD (i + 1) "" := by
        have : 2 + i + 1 = (i + 1) + 2 := by omega
        rw [this]
        rfl
      by_cases hc : i + 1 < rest.length
      · rw [if_pos (h1.mpr hc), if_pos hc, h2, h3]
      · rw [if_neg (fun hx => hc (h1.mp hx)), if_neg hc, h2]
    rw [List.map_cons, hshift, List.map_map]
    have hmap : ((List.range' 0 ((rest.length + 1) / 2) 2).map
          ((fun i =>
            if i + 1 < (x :: y :: rest).length then
              (x :: y :: rest).getD i "" ++ " / " ++ (x :: y :: rest).getD (i + 1) ""
            else (x :: y :: rest).getD i "") ∘ (fun i => 2 + i))) = pair_lines rest := by
      rw [← ih]
      exact List.map_congr_left (fun i _ => harg i)
    rw [hmap]
    have hhead : (if 0 + 1 < (x :: y :: rest).length then
        (x :: y :: rest).getD 0 "" ++ " / " ++ (x :: y :: rest).getD (0 + 1) ""
      else (x :: y :: rest).getD 0 "") = x ++ " / " ++ y := by
      rw [if_pos (by simp)]
      rfl
    rw [hhead, pair_lines]

/-- C8: `Game.get_poem` pairs contributions at indices (0,1), (2,3), …,
joining each pair with the separator " / " into one line, an unpaired
trailing contribution forms its own line, lines are joined in order with a
line break; and on contributions ["a b c d e f", "g h i j k l"] it yields
exactly "a b c d e f / g h i j k l" with no trailing content. -/
theorem claim_C8 :
    (∀ g : Game, g.get_poem = String.intercalate "\n" (pair_lines g.contributions)) ∧
    Game.get_poem
      { channel_id := 1
        starter_id := 10
        first_words := "a b c d e f"
        words_per_turn := 6
        total_lines := 1
        contributions := ["a b c d e f", "g h i j k l"]
        contributors := [10, 20]
        player_a := some 10
        player_b := some 20
        status := "complete"
        last_activity := 0
        current_turn := 2 } = "a b c d e f / g h i j k l" := by
  constructor
  · intro g
    simp only [Game.get_poem]
    rw [poem_loop]
  · decide

/-! ### Persistence round-trip (claim C7) -/

theorem row_to_game_to_row (g : Game) : row_to_game (to_row g) = g := rfl

theorem load_all_games_append (db1 db2 : List (Nat × Row)) :
    load_all_games (db1 ++ db2) = load_all_games db1 ++ load_all_games db2 := by
  unfold load_all_games
  rw [List.filter_append, List.map_append]

theorem load_all_games_keys {db : List (Nat × Row)} {q : Nat × Game}
    (hdb : ∀ p ∈ db, p.2.channel_id = p.1) (hq : q ∈ load_all_games db) :
    (q.1, to_row q.2) ∈ db ∧ q.1 = q.2.channel_id := by
  unfold load_all_games at hq
  rcases List.mem_map.mp hq with ⟨p, hp, hpq⟩
  have hpdb : p ∈ db := List.mem_of_mem_filter hp
  have hkey := hdb p hpdb
  constructor
  · have h1 : q.1 = p.1 := by rw [← hpq, ← hkey]
    have h2 : to_row q.2 = p.2 := by
      rw [← hpq]
      show to_row (row_to_game p.2) = p.2
      rfl
    rw [h1, h2]
    exact hpdb
  · rw [← hpq]
    rfl

/-- C7: for every session whose status is not 'complete', `save_game`
followed by `load_all_games` yields a session with field values identical to
the original, under the store well-formedness that rows are keyed by their
own channel id. -/
theorem claim_C7 (db : List (Nat × Row)) (g : Game)
    (hdb : ∀ p ∈ db, p.2.channel_id = p.1)
    (hg : g.status ≠ "complete") :
    alookup (load_all_games (save_game db g)) g.channel_id = some g := by
  unfold save_game ainsert
  rw [load_all_games_append, alookup_append]
  have herased : alookup (load_all_games (aerase db g.channel_id)) g.channel_id = none := by
    apply alookup_eq_none_of_keys_ne
    intro q hq
    have hdb2 : ∀ p ∈ aerase db g.channel_id, p.2.channel_id = p.1 :=
      fun p hp => hdb p (mem_aerase hp)
    have hkeys := load_all_games_keys hdb2 hq
    have hne := mem_aerase_key_ne hkeys.1
    simpa using hne
  rw [herased]
  unfold load_all_games
  have hrowstat : (to_row g).status = g.status := rfl
  simp only [List.filter_cons, List.filter_nil]
  rw [show (decide ((g.channel_id, to_row g).2.status ≠ "complete")) = true by
    simpa [hrowstat] using hg]
  simp only [List.map_cons, List.map_nil, if_true]
  have : row_to_game (g.channel_id, to_row g).2 = g := rfl
  rw [this]
  simp [alookup_cons, to_row]

/-- Witness for C7 at a concrete one-line open session and an empty store. -/
theorem claim_C7_witness :
    (∀ p ∈ ([] : List (Nat × Row)), p.2.channel_id = p.1) ∧
    alookup
      (load_all_games (save_game []
        { channel_id := 1
          starter_id := 10
          first_words := "a b c d e f"
          words_per_turn := 6
          total_lines := 1
          contributions := ["a b c d e f"]
          contributors := [10]
          player_a := some 10
          player_b := none
          status := "open"
          last_activity := 42
          current_turn := 1 })) 1 =
      some
        { channel_id := 1
          starter_id := 10
          first_words := "a b c d e f"
          words_per_turn := 6
          total_lines := 1
          contributions := ["a b c d e f"]
          contributors := [10]
          player_a := some 10
          player_b := none
          status := "open"
          last_activity := 42
          current_turn := 1 } :=
  ⟨fun p hp => absurd hp (List.not_mem_nil p),
   claim_C7 [] _ (fun p hp => absurd hp (List.not_mem_nil p)) (by decide)⟩

/-! ### Abandon (claim C10) -/

/-- C10: for a bound identity, `cmd_abandon` clears exactly the slot fields
equal to that identity, removes the identity from both router indices, and
leaves status, contributions, contributors, current_turn and last_activity
unchanged (in particular last_activity is not refreshed); other sessions and
other identities' router entries are untouched. -/
theorem claim_C10 (s : BotState) (u c : Nat) (g : Game)
    (hb : alookup s.player_games u = some c)
    (hg : alookup s.games c = some g) :
    (cmd_abandon s u).2 = Reply.abandoned ∧
    alookup (cmd_abandon s u).1.player_games u = none ∧
    alookup (cmd_abandon s u).1.pending_responses u = none ∧
    alookup (cmd_abandon s u).1.games c = some
      { g with player_a := if g.player_a = some u then none else g.player_a
               player_b := if g.player_b = some u then none else g.player_b } ∧
    (∀ c2, c2 ≠ c → alookup (cmd_abandon s u).1.games c2 = alookup s.games c2) ∧
    (∀ v, v ≠ u → alookup (cmd_abandon s u).1.player_games v = alookup s.player_games v ∧
      alookup (cmd_abandon s u).1.pending_responses v = alookup s.pending_responses v) := by
  unfold cmd_abandon
  simp only [hb, hg]
  refine ⟨trivial, ?_, ?_, ?_, ?_, ?_⟩
  · exact alookup_aerase_self _ _
  · exact alookup_aerase_self _ _
  · exact alookup_ainsert_self _ _ _
  · intro c2 hc2
    exact alookup_ainsert_ne _ _ hc2
  · intro v hv
    exact ⟨alookup_aerase_ne _ hv, alookup_aerase_ne _ hv⟩

/-- Witness for C10: a concrete two-player active session where player b
abandons. -/
theorem claim_C10_witness :
    alookup
      (BotState.player_games
        { games := [(1,
            { channel_id := 1
              starter_id := 10
              first_words := "a b"
              words_per_turn := 2
              total_lines := 2
              contributions := ["a b", "c d"]
              contributors := [10, 20]
              player_a := some 10
              player_b := some 20
              status := "active"
              last_activity := 7
              current_turn := 2 })]
          player_games := [(10, 1), (20, 1)]
          pending_responses := [(10, 1)]
          db := [] }) 20 = some 1 ∧
    alookup
      (cmd_abandon
        { games := [(1,
            { channel_id := 1
              starter_id := 10
              first_words := "a b"
              words_per_turn := 2
              total_lines := 2
              contributions := ["a b", "c d"]
              contributors := [10, 20]
              player_a := some 10
              player_b := some 20
              status := "active"
              last_activity := 7
              current_turn := 2 })]
          player_games := [(10, 1), (20, 1)]
          pending_responses := [(10, 1)]
          db := [] } 20).1.games 1 = some
      { channel_id := 1
        starter_id := 10
        first_words := "a b"
        words_per_turn := 2
        total_lines := 2
        contributions := ["a b", "c d"]
        contributors := [10, 20]
        player_a := some 10
        player_b := none
        status := "active"
        last_activity := 7
        current_turn := 2 } := by
  refine ⟨by decide, ?_⟩
  have h := claim_C10
    { games := [(1,
        { channel_id := 1
          starter_id := 10
          first_words := "a b"
          words_per_turn := 2
          total_lines := 2
          contributions := ["a b", "c d"]
          contributors := [10, 20]
          player_a := some 10
          player_b := some 20
          status := "active"
          last_activity := 7
          current_turn := 2 })]
      player_games := [(10, 1), (20, 1)]
      pending_responses := [(10, 1)]
      db := [] } 20 1
    { channel_id := 1
      starter_id := 10
      first_words := "a b"
      words_per_turn := 2
      total_lines := 2
      contributions := ["a b", "c d"]
      contributors := [10, 20]
      player_a := some 10
      player_b := some 20
      status := "active"
      last_activity := 7
      current_turn := 2 } (by decide) (by decide)
  exact h.2.2.2.1

/-! ### Evaluation lemmas for the join/turn paths -/

theorem add_contribution_eval (g : Game) (u : Nat) (w : String) (now : Nat) :
    g.add_contribution u w now =
      if g.total_lines * 2 ≤ g.current_turn + 1 then
        { g with contributions := g.contributions ++ [w]
                 contributors := g.contributors ++ [u]
                 current_turn := g.current_turn + 1
                 last_activity := now
                 status := "complete" }
      else
        { g with contributions := g.contributions ++ [w]
                 contributors := g.contributors ++ [u]
                 current_turn := g.current_turn + 1
                 last_activity := now } := by
  unfold Game.add_contribution Game.total_turns
  by_cases h : g.total_lines * 2 ≤ g.current_turn + 1
  · simp only [h, if_true, if_pos h]
  · simp only [h, if_false, if_neg h]

/-- C9: while a session is 'active' with its current-turn slot vacant,
`cmd_join` accepts an identity already occupying the other slot of the same
session (bound to this same channel); the self-play rejection applies only to
the different-channel check and the 'open'-state guard, so one identity comes
to occupy both slots. -/
theorem claim_C9 (env : Env) (s : BotState) (u c : Nat) (g : Game) (w : String) (now : Nat)
    (hg : alookup s.games c = some g)
    (hact : g.status = "active")
    (hb : alookup s.player_games u = some c)
    (hslot : (g.current_turn % 2 = 0 ∧ g.player_a = none ∧ g.player_b = some u) ∨
             (g.current_turn % 2 = 1 ∧ g.player_b = none ∧ g.player_a = some u))
    (hw : w ≠ "")
    (hcount : count_words w = g.words_per_turn)
    (hnc : g.current_turn + 1 < g.total_lines * 2) :
    (cmd_join env s u c (some w) now).2 = Reply.tookOver ∧
    ∃ g2, alookup (cmd_join env s u c (some w) now).1.games c = some g2 ∧
      g2.player_a = some u ∧ g2.player_b = some u ∧
      g2.contributions = g.contributions ++ [w] ∧
      g2.contributors = g.contributors ++ [u] ∧
      g2.status = "active" := by
  have hc1 : ¬ g.status = "complete" := by rw [hact]; decide
  have hc2 : ¬ g.status = "pending" := by rw [hact]; decide
  have hnopen : ¬ g.status = "open" := by rw [hact]; decide
  have hbe : bound_elsewhere s u c = false := by
    unfold bound_elsewhere
    rw [hb]
    simp
  have hso : g.slot_is_open = true := by
    unfold Game.slot_is_open
    rw [hact]
    rcases hslot with ⟨h1, h2, _⟩ | ⟨h1, h2, _⟩
    · simp [h1, h2]
    · simp [h1, h2]
  have hop : ¬ (g.status = "open" ∧ g.player_a = some u) :=
    fun h => hnopen h.1
  have hcnt : ¬ count_words w ≠ g.words_per_turn := fun h => h hcount
  have hreply : (if g.status = "open" then Reply.joined else Reply.tookOver) =
      Reply.tookOver := if_neg hnopen
  have heval : cmd_join env s u c (some w) now =
      join_with_words env s u c g w now := by
    unfold cmd_join
    simp only [hg, if_neg hc1, if_neg hc2, hbe, hso, Bool.not_true,
      Bool.false_eq_true, if_false, if_neg hop]
    simp [hw]
  rw [heval]
  unfold join_with_words
  rw [if_neg hcnt, hreply]
  have hassign : join_assign_slot g u =
      if g.current_turn % 2 = 0 then { g with player_a := some u }
      else { g with player_b := some u } := by
    unfold join_assign_slot
    rw [if_neg hnopen]
  have hg2 : (join_assign_slot g u).add_contribution u w now =
      { g with player_a := if g.current_turn % 2 = 0 then some u else g.player_a
               player_b := if g.current_turn % 2 = 0 then g.player_b else some u
               contributions := g.contributions ++ [w]
               contributors := g.contributors ++ [u]
               current_turn := g.current_turn + 1
               last_activity := now } := by
    rw [hassign]
    by_cases hpar : g.current_turn % 2 = 0
    · rw [if_pos hpar, add_contribution_eval]
      simp only
      rw [if_neg (by simpa using Nat.not_le.mpr hnc)]
      simp [hpar]
    · rw [if_neg hpar, add_contribution_eval]
      simp only
      rw [if_neg (by simpa using Nat.not_le.mpr hnc)]
      simp [hpar]
  rw [hg2]
  have hg2nc : ¬ (Game.status
      { g with player_a := if g.current_turn % 2 = 0 then some u else g.player_a
               player_b := if g.current_turn % 2 = 0 then g.player_b else some u
               contributions := g.contributions ++ [w]
               contributors := g.contributors ++ [u]
               current_turn := g.current_turn + 1
               last_activity := now }) = "complete" := by
    show ¬ g.status = "complete"
    exact hc1
  rw [if_neg hg2nc]
  refine ⟨rfl,
    { g with player_a := if g.current_turn % 2 = 0 then some u else g.player_a
             player_b := if g.current_turn % 2 = 0 then g.player_b else some u
             contributions := g.contributions ++ [w]
             contributors := g.contributors ++ [u]
             current_turn := g.current_turn + 1
             last_activity := now }, ?_, ?_, ?_, rfl, rfl, hact⟩
  · rw [games_prompt_next_player]
    exact alookup_ainsert_self _ _ _
  · rcases hslot with ⟨h1, _, _⟩ | ⟨h1, _, h3⟩
    · simp [h1]
    · have hne : ¬ g.current_turn % 2 = 0 := by omega
      simp [hne, h3]
  · rcases hslot with ⟨h1, _, h3⟩ | ⟨h1, _, _⟩
    · simp [h1, h3]
    · have hne : ¬ g.current_turn % 2 = 0 := by omega
      simp [hne]

/-- Witness for C9: identity 20 already holds slot b of the active session in
channel 1, slot a (whose turn it is) is vacant, and 20 takes it over. -/
theorem claim_C9_witness :
    (cmd_join { channelFound := true, userFound := true }
      { games := [(1,
          { channel_id := 1
            starter_id := 10
            first_words := "a b"
            words_per_turn := 2
            total_lines := 3
            contributions := ["a b", "c d", "e f"]
            contributors := [10, 20, 10]
            player_a := none
            player_b := some 20
            status := "active"
            last_activity := 0
            current_turn := 4 })]
        player_games := [(20, 1)]
        pending_responses := []
        db := [] } 20 1 (some "x y") 99).2 = Reply.tookOver ∧
    ∃ g2, alookup (cmd_join { channelFound := true, userFound := true }
      { games := [(1,
          { channel_id := 1
            starter_id := 10
            first_words := "a b"
            words_per_turn := 2
            total_lines := 3
            contributions := ["a b", "c d", "e f"]
            contributors := [10, 20, 10]
            player_a := none
            player_b := some 20
            status := "active"
            last_activity := 0
            current_turn := 4 })]
        player_games := [(20, 1)]
        pending_responses := []
        db := [] } 20 1 (some "x y") 99).1.games 1 = some g2 ∧
      g2.player_a = some 20 ∧ g2.player_b = some 20 ∧
      g2.contributions = ["a b", "c d", "e f"] ++ ["x y"] ∧
      g2.contributors = [10, 20, 10] ++ [20] ∧
      g2.status = "active" :=
  claim_C9 { channelFound := true, userFound := true }
    { games := [(1,
        { channel_id := 1
          starter_id := 10
          first_words := "a b"
          words_per_turn := 2
          total_lines := 3
          contributions := ["a b", "c d", "e f"]
          contributors := [10, 20, 10]
          player_a := none
          player_b := some 20
          status := "active"
          last_activity := 0
          current_turn := 4 })]
      player_games := [(20, 1)]
      pending_responses := []
      db := [] } 20 1
    { channel_id := 1
      starter_id := 10
      first_words := "a b"
      words_per_turn := 2
      total_lines := 3
      contributions := ["a b", "c d", "e f"]
      contributors := [10, 20, 10]
      player_a := none
      player_b := some 20
      status := "active"
      last_activity := 0
      current_turn := 4 } "x y" 99
    (by decide) rfl (by decide) (Or.inl ⟨rfl, rfl, rfl⟩)
    (by decide) (by decide) (by decide)

/-! ### Word-count validation (claim C6) -/

/-- C6: a submitted text whose whitespace-token count differs from
`words_per_turn` fails with the word-count-mismatch reply and leaves the
entire state (hence the session's contributions, contributors, current_turn,
status, slots, last_activity) unchanged, on each submission path: the DM
handler, `cmd_join` with words, and `cmd_start` with words. -/
theorem claim_C6 (env : Env) (s : BotState) (u c : Nat) (g : Game)
    (content w : String) (lines wordcount now : Nat) :
    (alookup s.pending_responses u = some c → alookup s.games c = some g →
      count_words (py_strip content) ≠ g.words_per_turn →
      on_message env s u content now = (s, Reply.wordCountMismatch)) ∧
    (alookup s.games c = some g → ¬ g.status = "complete" → ¬ g.status = "pending" →
      bound_elsewhere s u c = false → g.slot_is_open = true →
      ¬ (g.status = "open" ∧ g.player_a = some u) → w ≠ "" →
      count_words w ≠ g.words_per_turn →
      cmd_join env s u c (some w) now = (s, Reply.wordCountMismatch)) ∧
    (alookup s.player_games u = none → channel_busy s c = false → w ≠ "" →
      count_words w ≠ wordcount →
      cmd_start s u c (some w) lines wordcount now = (s, Reply.wordCountMismatch)) := by
  refine ⟨?_, ?_, ?_⟩
  · intro hm hgame hcnt
    unfold on_message
    simp only [hm, hgame]
    rw [if_pos hcnt]
  · intro hgame hc1 hc2 hbe hso hop hw hcnt
    unfold cmd_join
    simp only [hgame, if_neg hc1, if_neg hc2, hbe, hso, Bool.not_true,
      Bool.false_eq_true, if_false, if_neg hop]
    simp only [if_neg hw]
    unfold join_with_words
    rw [if_pos hcnt]
  · intro h1 h2 hw hcnt
    unfold cmd_start
    simp only [h1, Option.isSome_none, Bool.false_eq_true, if_false, h2]
    simp only [if_neg hw]
    unfold start_open_game
    rw [if_pos hcnt]

/-- Witness for C6: the spec example — a `words_per_turn = 6`, `total_lines = 1`
open session; a 5-word second contribution via join is rejected and
`current_turn` stays 1. -/
theorem claim_C6_witness :
    cmd_join { channelFound := true, userFound := true }
      { games := [(1,
          { channel_id := 1
            starter_id := 10
            first_words := "a b c d e f"
            words_per_turn := 6
            total_lines := 1
            contributions := ["a b c d e f"]
            contributors := [10]
            player_a := some 10
            player_b := none
            status := "open"
            last_activity := 0
            current_turn := 1 })]
        player_games := [(10, 1)]
        pending_responses := []
        db := [] } 20 1 (some "v w x y z") 99 =
      ({ games := [(1,
           { channel_id := 1
             starter_id := 10
             first_words := "a b c d e f"
             words_per_turn := 6
             total_lines := 1
             contributions := ["a b c d e f"]
             contributors := [10]
             player_a := some 10
             player_b := none
             status := "open"
             last_activity := 0
             current_turn := 1 })]
         player_games := [(10, 1)]
         pending_responses := []
         db := [] }, Reply.wordCountMismatch) ∧
    (alookup
      (cmd_join { channelFound := true, userFound := true }
        { games := [(1,
            { channel_id := 1
              starter_id := 10
              first_words := "a b c d e f"
              words_per_turn := 6
              total_lines := 1
              contributions := ["a b c d e f"]
              contributors := [10]
              player_a := some 10
              player_b := none
              status := "open"
              last_activity := 0
              current_turn := 1 })]
          player_games := [(10, 1)]
          pending_responses := []
          db := [] } 20 1 (some "v w x y z") 99).1.games 1).map Game.current_turn =
      some 1 := by
  have h := (claim_C6 { channelFound := true, userFound := true }
    { games := [(1,
        { channel_id := 1
          starter_id := 10
          first_words := "a b c d e f"
          words_per_turn := 6
          total_lines := 1
          contributions := ["a b c d e f"]
          contributors := [10]
          player_a := some 10
          player_b := none
          status := "open"
          last_activity := 0
          current_turn := 1 })]
      player_games := [(10, 1)]
      pending_responses := []
      db := [] } 20 1
    { channel_id := 1
      starter_id := 10
      first_words := "a b c d e f"
      words_per_turn := 6
      total_lines := 1
      contributions := ["a b c d e f"]
      contributors := [10]
      player_a := some 10
      player_b := none
      status := "open"
      last_activity := 0
      current_turn := 1 } "ignored" "v w x y z" 4 6 99).2.1
    (by decide) (by decide) (by decide) (by decide) (by decide)
    (by decide) (by decide) (by decide)
  refine ⟨h, ?_⟩
  rw [h]
  decide

/-! ### Free-text routing (claim C2) -/

/-- C2 counterexample: a routed free-text submission to a 'pending' session is
accepted from a sender holding the awaiting-reply mark even when that sender
is not the starter — the code performs no starter check on the pending path;
here starter 10's pending session accepts sender 20's words, recording 20 as
the sole contributor. -/
theorem claim_C2_counterexample :
    ((alookup
        (BotState.games
          { games := [(1,
              { channel_id := 1
                starter_id := 10
                first_words := ""
                words_per_turn := 2
                total_lines := 4
                contributions := []
                contributors := []
                player_a := some 10
                player_b := none
                status := "pending"
                last_activity := 0
                current_turn := 1 })]
            player_games := [(10, 1)]
            pending_responses := [(20, 1)]
            db := [] }) 1).map Game.status = some "pending") ∧
    ((alookup
        (BotState.games
          { games := [(1,
              { channel_id := 1
                starter_id := 10
                first_words := ""
                words_per_turn := 2
                total_lines := 4
                contributions := []
                contributors := []
                player_a := some 10
                player_b := none
                status := "pending"
                last_activity := 0
                current_turn := 1 })]
            player_games := [(10, 1)]
            pending_responses := [(20, 1)]
            db := [] }) 1).map Game.starter_id = some 10) ∧
    (on_message { channelFound := true, userFound := true }
        { games := [(1,
            { channel_id := 1
              starter_id := 10
              first_words := ""
              words_per_turn := 2
              total_lines := 4
              contributions := []
              contributors := []
              player_a := some 10
              player_b := none
              status := "pending"
              last_activity := 0
              current_turn := 1 })]
          player_games := [(10, 1)]
          pending_responses := [(20, 1)]
          db := [] } 20 "x y" 5).2 = Reply.acceptedWords ∧
    ((alookup
        (on_message { channelFound := true, userFound := true }
          { games := [(1,
              { channel_id := 1
                starter_id := 10
                first_words := ""
                words_per_turn := 2
                total_lines := 4
                contributions := []
                contributors := []
                player_a := some 10
                player_b := none
                status := "pending"
                last_activity := 0
                current_turn := 1 })]
            player_games := [(10, 1)]
            pending_responses := [(20, 1)]
            db := [] } 20 "x y" 5).1.games 1).map Game.contributors = some [20]) := by
  decide

/-- C2 amended: for a routed free-text submission with matching word count,
if the session is 'pending' it is accepted from whichever sender holds the
awaiting-reply mark (no starter check); if the session is not 'pending' and
the current occupant implied by current_turn parity is not the sender, the
stale mark is cleared and the submission is rejected with no change to the
session map (hence contributions, contributors, current_turn, status). -/
theorem claim_C2 (env : Env) (s : BotState) (u c : Nat) (g : Game)
    (content : String) (now : Nat)
    (hm : alookup s.pending_responses u = some c)
    (hg : alookup s.games c = some g)
    (hcount : count_words (py_strip content) = g.words_per_turn) :
    (g.status = "pending" → (on_message env s u content now).2 = Reply.acceptedWords) ∧
    (¬ g.status = "pending" → g.current_player ≠ some u →
      on_message env s u content now =
        ({ s with pending_responses := aerase s.pending_responses u },
          Reply.notYourTurn)) := by
  have hcnt : ¬ count_words (py_strip content) ≠ g.words_per_turn :=
    fun h => h hcount
  constructor
  · intro hpend
    unfold on_message
    simp only [hm, hg]
    rw [if_neg hcnt, if_pos hpend]
  · intro hnp hcur
    unfold on_message
    simp only [hm, hg]
    rw [if_neg hcnt, if_neg hnp, if_pos hcur]

/-- Witness for C2 amended: a stale mark held by identity 20 while the active
session's current occupant is 30 — the mark is cleared and nothing else
changes. -/
theorem claim_C2_witness :
    on_message { channelFound := true, userFound := true }
      { games := [(1,
          { channel_id := 1
            starter_id := 10
            first_words := "a b"
            words_per_turn := 2
            total_lines := 4
            contributions := ["a b"]
            contributors := [10]
            player_a := some 10
            player_b := some 30
            status := "active"
            last_activity := 0
            current_turn := 1 })]
        player_games := [(10, 1), (30, 1)]
        pending_responses := [(20, 1)]
        db := [] } 20 "x y" 5 =
      ({ games := [(1,
           { channel_id := 1
             starter_id := 10
             first_words := "a b"
             words_per_turn := 2
             total_lines := 4
             contributions := ["a b"]
             contributors := [10]
             player_a := some 10
             player_b := some 30
             status := "active"
             last_activity := 0
             current_turn := 1 })]
         player_games := [(10, 1), (30, 1)]
         pending_responses := aerase [(20, 1)] 20
         db := [] }, Reply.notYourTurn) :=
  (claim_C2 { channelFound := true, userFound := true }
    { games := [(1,
        { channel_id := 1
          starter_id := 10
          first_words := "a b"
          words_per_turn := 2
          total_lines := 4
          contributions := ["a b"]
          contributors := [10]
          player_a := some 10
          player_b := some 30
          status := "active"
          last_activity := 0
          current_turn := 1 })]
      player_games := [(10, 1), (30, 1)]
      pending_responses := [(20, 1)]
      db := [] } 20 1
    { channel_id := 1
      starter_id := 10
      first_words := "a b"
      words_per_turn := 2
      total_lines := 4
      contributions := ["a b"]
      contributors := [10]
      player_a := some 10
      player_b := some 30
      status := "active"
      last_activity := 0
      current_turn := 1 } "x y" 5 (by decide) (by decide) (by decide)).2
    (by decide) (by decide)

/-! ### Completion teardown (claim C3) -/

theorem alookup_aerase_none {α : Type} {m : List (Nat × α)} {p q : Nat}
    (h : alookup m p = none) : alookup (aerase m q) p = none := by
  rw [alookup_aerase]
  by_cases hp : p = q
  · simp [hp]
  · simp [hp, h]

theorem clean_player_pg_none (s : BotState) (uid : Option Nat) {p : Nat}
    (h : alookup s.player_games p = none) :
    alookup (clean_player s uid).player_games p = none := by
  unfold clean_player
  cases uid with
  | none => exact h
  | some u =>
    by_cases hu : u = 0
    · simpa [hu] using h
    · simpa [hu] using alookup_aerase_none h

theorem clean_player_pr_none (s : BotState) (uid : Option Nat) {p : Nat}
    (h : alookup s.pending_responses p = none) :
    alookup (clean_player s uid).pending_responses p = none := by
  unfold clean_player
  cases uid with
  | none => exact h
  | some u =>
    by_cases hu : u = 0
    · simpa [hu] using h
    · simpa [hu] using alookup_aerase_none h

theorem clean_player_pg_self (s : BotState) {p : Nat} (hp : p ≠ 0) :
    alookup (clean_player s (some p)).player_games p = none := by
  unfold clean_player
  simpa [hp] using alookup_aerase_self s.player_games p

theorem clean_player_pr_self (s : BotState) {p : Nat} (hp : p ≠ 0) :
    alookup (clean_player s (some p)).pending_responses p = none := by
  unfold clean_player
  simpa [hp] using alookup_aerase_self s.pending_responses p

theorem post_completed_cleanup (env : Env) (s : BotState) (g : Game)
    (hc : env.channelFound = true) :
    alookup (post_completed_poem env s g).games g.channel_id = none ∧
    alookup (post_completed_poem env s g).db g.channel_id = none ∧
    (∀ p, p ≠ 0 → (g.player_a = some p ∨ g.player_b = some p) →
      alookup (post_completed_poem env s g).player_games p = none ∧
      alookup (post_completed_poem env s g).pending_responses p = none) := by
  unfold post_completed_poem
  rw [if_pos hc]
  refine ⟨?_, ?_, ?_⟩
  · simp only
    rw [games_clean_player, games_clean_player]
    exact alookup_aerase_self _ _
  · simp only [delete_game]
    rw [db_clean_player, db_clean_player]
    exact alookup_aerase_self _ _
  · intro p hp0 hslot
    rcases hslot with ha | hb
    · rw [ha]
      exact ⟨clean_player_pg_none _ _ (clean_player_pg_self _ hp0),
             clean_player_pr_none _ _ (clean_player_pr_self _ hp0)⟩
    · rw [hb]
      exact ⟨clean_player_pg_self _ hp0, clean_player_pr_self _ hp0⟩

theorem add_contribution_channel_id (g : Game) (u : Nat) (w : String) (now : Nat) :
    (g.add_contribution u w now).channel_id = g.channel_id := by
  rw [add_contribution_eval]
  split <;> rfl

theorem add_contribution_player_a (g : Game) (u : Nat) (w : String) (now : Nat) :
    (g.add_contribution u w now).player_a = g.player_a := by
  rw [add_contribution_eval]
  split <;> rfl

theorem add_contribution_player_b (g : Game) (u : Nat) (w : String) (now : Nat) :
    (g.add_contribution u w now).player_b = g.player_b := by
  rw [add_contribution_eval]
  split <;> rfl

theorem join_assign_slot_channel_id (g : Game) (u : Nat) :
    (join_assign_slot g u).channel_id = g.channel_id := by
  unfold join_assign_slot
  split
  · rfl
  · split <;> rfl

/-- C3 counterexample: when the originating channel cannot be resolved at
completion time, `post_completed_poem` returns before any cleanup: the
completed session stays in the live map and in the store and the contributors
stay bound in the router index, contradicting the claim's unconditional
teardown. -/
theorem claim_C3_counterexample :
    ((alookup
        (on_message { channelFound := false, userFound := true }
          { games := [(1,
              { channel_id := 1
                starter_id := 10
                first_words := "a"
                words_per_turn := 1
                total_lines := 1
                contributions := ["a"]
                contributors := [10]
                player_a := some 10
                player_b := some 20
                status := "active"
                last_activity := 0
                current_turn := 1 })]
            player_games := [(10, 1), (20, 1)]
            pending_responses := [(20, 1)]
            db := [] } 20 "b" 5).1.games 1).map Game.status = some "complete") ∧
    ((alookup
        (on_message { channelFound := false, userFound := true }
          { games := [(1,
              { channel_id := 1
                starter_id := 10
                first_words := "a"
                words_per_turn := 1
                total_lines := 1
                contributions := ["a"]
                contributors := [10]
                player_a := some 10
                player_b := some 20
                status := "active"
                last_activity := 0
                current_turn := 1 })]
            player_games := [(10, 1), (20, 1)]
            pending_responses := [(20, 1)]
            db := [] } 20 "b" 5).1.db 1).isSome = true) ∧
    alookup
      (on_message { channelFound := false, userFound := true }
        { games := [(1,
            { channel_id := 1
              starter_id := 10
              first_words := "a"
              words_per_turn := 1
              total_lines := 1
              contributions := ["a"]
              contributors := [10]
              player_a := some 10
              player_b := some 20
              status := "active"
              last_activity := 0
              current_turn := 1 })]
          player_games := [(10, 1), (20, 1)]
          pending_responses := [(20, 1)]
          db := [] } 20 "b" 5).1.player_games 10 = some 1 := by
  decide

/-- C3 amended: when the completing operation can resolve the originating
channel, then immediately afterwards the session is absent from the live map
and from the store, and each nonzero slot occupant is absent from both router
indices — on both completing paths (free-text turn and join-with-words). -/
theorem claim_C3 (env : Env) (s : BotState) (u c : Nat) (g : Game)
    (content w : String) (now : Nat)
    (hc : env.channelFound = true)
    (hch : g.channel_id = c) :
    (alookup s.pending_responses u = some c → alookup s.games c = some g →
      count_words (py_strip content) = g.words_per_turn →
      ¬ g.status = "pending" → g.current_player = some u →
      g.total_lines * 2 ≤ g.current_turn + 1 →
      ∀ p, p ≠ 0 → (g.player_a = some p ∨ g.player_b = some p) →
        alookup (on_message env s u content now).1.games c = none ∧
        alookup (on_message env s u content now).1.db c = none ∧
        alookup (on_message env s u content now).1.player_games p = none ∧
        alookup (on_message env s u content now).1.pending_responses p = none) ∧
    (alookup s.games c = some g → ¬ g.status = "complete" → ¬ g.status = "pending" →
      bound_elsewhere s u c = false → g.slot_is_open = true →
      ¬ (g.status = "open" ∧ g.player_a = some u) → w ≠ "" →
      count_words w = g.words_per_turn →
      g.total_lines * 2 ≤ g.current_turn + 1 →
      ∀ p, p ≠ 0 →
        ((join_assign_slot g u).player_a = some p ∨
          (join_assign_slot g u).player_b = some p) →
        alookup (cmd_join env s u c (some w) now).1.games c = none ∧
        alookup (cmd_join env s u c (some w) now).1.db c = none ∧
        alookup (cmd_join env s u c (some w) now).1.player_games p = none ∧
        alookup (cmd_join env s u c (some w) now).1.pending_responses p = none) := by
  constructor
  · intro hm hg hcount hnp hcur hcomp p hp0 hslot
    have hcnt : ¬ count_words (py_strip content) ≠ g.words_per_turn :=
      fun h => h hcount
    unfold on_message
    simp only [hm, hg]
    rw [if_neg hcnt, if_neg hnp, if_neg (fun h => h hcur)]
    have hst : (g.add_contribution u (py_strip content) now).status = "complete" := by
      rw [add_contribution_eval, if_pos hcomp]
    rw [if_pos hst]
    have hclean := post_completed_cleanup env
      { s with pending_responses := aerase s.pending_responses u
               games := ainsert s.games c (g.add_contribution u (py_strip content) now)
               db := save_game s.db (g.add_contribution u (py_strip content) now) }
      (g.add_contribution u (py_strip content) now) hc
    rw [add_contribution_channel_id, hch] at hclean
    refine ⟨hclean.1, hclean.2.1, ?_, ?_⟩
    · exact (hclean.2.2 p hp0 (by
        rw [add_contribution_player_a, add_contribution_player_b]
        exact hslot)).1
    · exact (hclean.2.2 p hp0 (by
        rw [add_contribution_player_a, add_contribution_player_b]
        exact hslot)).2
  · intro hg hc1 hc2 hbe hso hop hw hcount hcomp p hp0 hslot
    have hcnt : ¬ count_words w ≠ g.words_per_turn := fun h => h hcount
    have heval : cmd_join env s u c (some w) now =
        join_with_words env s u c g w now := by
      unfold cmd_join
      simp only [hg, if_neg hc1, if_neg hc2, hbe, hso, Bool.not_true,
        Bool.false_eq_true, if_false, if_neg hop]
      simp [hw]
    rw [heval]
    unfold join_with_words
    rw [if_neg hcnt]
    have hst : ((join_assign_slot g u).add_contribution u w now).status =
        "complete" := by
      rw [add_contribution_eval]
      have : (join_assign_slot g u).total_lines = g.total_lines ∧
          (join_assign_slot g u).current_turn = g.current_turn := by
        unfold join_assign_slot
        split
        · exact ⟨rfl, rfl⟩
        · split <;> exact ⟨rfl, rfl⟩
      rw [if_pos (by rw [this.1, this.2]; exact hcomp)]
    rw [if_pos hst]
    have hclean := post_completed_cleanup env
      { s with games := ainsert s.games c ((join_assign_slot g u).add_contribution u w now)
               player_games := ainsert s.player_games u c
               db := save_game s.db ((join_assign_slot g u).add_contribution u w now) }
      ((join_assign_slot g u).add_contribution u w now) hc
    rw [add_contribution_channel_id, join_assign_slot_channel_id, hch] at hclean
    refine ⟨hclean.1, hclean.2.1, ?_, ?_⟩
    · exact (hclean.2.2 p hp0 (by
        rw [add_contribution_player_a, add_contribution_player_b]
        exact hslot)).1
    · exact (hclean.2.2 p hp0 (by
        rw [add_contribution_player_a, add_contribution_player_b]
        exact hslot)).2

/-- Witness for C3 amended: the final free-text contribution of a one-line
game, with the channel resolvable — the session and both identities are fully
torn down. -/
theorem claim_C3_witness :
    alookup
      (on_message { channelFound := true, userFound := true }
        { games := [(1,
            { channel_id := 1
              starter_id := 10
              first_words := "a"
              words_per_turn := 1
              total_lines := 1
              contributions := ["a"]
              contributors := [10]
              player_a := some 10
              player_b := some 20
              status := "active"
              last_activity := 0
              current_turn := 1 })]
          player_games := [(10, 1), (20, 1)]
          pending_responses := [(20, 1)]
          db := [] } 20 "b" 5).1.games 1 = none ∧
    alookup
      (on_message { channelFound := true, userFound := true }
        { games := [(1,
            { channel_id := 1
              starter_id := 10
              first_words := "a"
              words_per_turn := 1
              total_lines := 1
              contributions := ["a"]
              contributors := [10]
              player_a := some 10
              player_b := some 20
              status := "active"
              last_activity := 0
              current_turn := 1 })]
          player_games := [(10, 1), (20, 1)]
          pending_responses := [(20, 1)]
          db := [] } 20 "b" 5).1.db 1 = none ∧
    alookup
      (on_message { channelFound := true, userFound := true }
        { games := [(1,
            { channel_id := 1
              starter_id := 10
              first_words := "a"
              words_per_turn := 1
              total_lines := 1
              contributions := ["a"]
              contributors := [10]
              player_a := some 10
              player_b := some 20
              status := "active"
              last_activity := 0
              current_turn := 1 })]
          player_games := [(10, 1), (20, 1)]
          pending_responses := [(20, 1)]
          db := [] } 20 "b" 5).1.player_games 10 = none ∧
    alookup
      (on_message { channelFound := true, userFound := true }
        { games := [(1,
            { channel_id := 1
              starter_id := 10
              first_words := "a"
              words_per_turn := 1
              total_lines := 1
              contributions := ["a"]
              contributors := [10]
              player_a := some 10
              player_b := some 20
              status := "active"
              last_activity := 0
              current_turn := 1 })]
          player_games := [(10, 1), (20, 1)]
          pending_responses := [(20, 1)]
          db := [] } 20 "b" 5).1.pending_responses 10 = none := by
  have h := (claim_C3 { channelFound := true, userFound := true }
    { games := [(1,
        { channel_id := 1
          starter_id := 10
          first_words := "a"
          words_per_turn := 1
          total_lines := 1
          contributions := ["a"]
          contributors := [10]
          player_a := some 10
          player_b := some 20
          status := "active"
          last_activity := 0
          current_turn := 1 })]
      player_games := [(10, 1), (20, 1)]
      pending_responses := [(20, 1)]
      db := [] } 20 1
    { channel_id := 1
      starter_id := 10
      first_words := "a"
      words_per_turn := 1
      total_lines := 1
      contributions := ["a"]
      contributors := [10]
      player_a := some 10
      player_b := some 20
      status := "active"
      last_activity := 0
      current_turn := 1 } "b" "unused" 5 rfl rfl).1
    (by decide) (by decide) (by decide) (by decide) (by decide) (by decide)
    10 (by decide) (Or.inl rfl)
  exact ⟨h.1, h.2.1, h.2.2.1, h.2.2.2⟩

/-! ### Timeout sweep (claim C4) -/

theorem erase_step_none {m : List (Nat × Nat)} {q : Nat × (Game × Option Nat)}
    (h : q.2.2 = none) : erase_step m q = m := by
  unfold erase_step
  rw [h]

theorem erase_step_some {m : List (Nat × Nat)} {q : Nat × (Game × Option Nat)}
    {uid : Nat} (h : q.2.2 = some uid) : erase_step m q = aerase m uid := by
  unfold erase_step
  rw [h]

theorem save_step_none {d : List (Nat × Row)} {q : Nat × (Game × Option Nat)}
    (h : q.2.2 = none) : save_step d q = d := by
  unfold save_step
  rw [h]

theorem save_step_some {d : List (Nat × Row)} {q : Nat × (Game × Option Nat)}
    {uid : Nat} (h : q.2.2 = some uid) : save_step d q = save_game d q.2.1 := by
  unfold save_step
  rw [h]

theorem foldl_erase_preserves_none :
    ∀ (xs : List (Nat × (Game × Option Nat))) (m : List (Nat × Nat)) {p : Nat},
      alookup m p = none → alookup (xs.foldl erase_step m) p = none
  | [], m, p, h => h
  | x :: rest, m, p, h => by
    rw [List.foldl_cons]
    cases hx : x.2.2 with
    | none =>
      rw [erase_step_none hx]
      exact foldl_erase_preserves_none rest m h
    | some uid =>
      rw [erase_step_some hx]
      exact foldl_erase_preserves_none rest _ (alookup_aerase_none h)

theorem foldl_erase_some :
    ∀ (xs : List (Nat × (Game × Option Nat))) (m : List (Nat × Nat)) {p : Nat},
      (∃ q ∈ xs, q.2.2 = some p) → alookup (xs.foldl erase_step m) p = none
  | [], m, p, h => absurd h (by simp)
  | x :: rest, m, p, h => by
    rw [List.foldl_cons]
    rcases h with ⟨q, hq, hqp⟩
    rcases List.mem_cons.mp hq with rfl | hqrest
    · rw [erase_step_some hqp]
      exact foldl_erase_preserves_none rest _ (alookup_aerase_self m p)
    · cases hx : x.2.2 with
      | none =>
        rw [erase_step_none hx]
        exact foldl_erase_some rest m ⟨q, hqrest, hqp⟩
      | some uid =>
        rw [erase_step_some hx]
        exact foldl_erase_some rest _ ⟨q, hqrest, hqp⟩

theorem foldl_save_preserves :
    ∀ (xs : List (Nat × (Game × Option Nat))) (d : List (Nat × Row)) {c : Nat},
      (∀ q ∈ xs, q.1 ≠ c) → (∀ q ∈ xs, q.2.1.channel_id = q.1) →
      alookup (xs.foldl save_step d) c = alookup d c
  | [], d, c, _, _ => rfl
  | x :: rest, d, c, hk, hWF => by
    rw [List.foldl_cons]
    have hrest := foldl_save_preserves rest
      (d := save_step d x) (c := c)
      (fun q hq => hk q (List.mem_cons_of_mem x hq))
      (fun q hq => hWF q (List.mem_cons_of_mem x hq))
    cases hx : x.2.2 with
    | none =>
      rw [save_step_none hx] at hrest ⊢
      rw [foldl_save_preserves rest d
        (fun q hq => hk q (List.mem_cons_of_mem x hq))
        (fun q hq => hWF q (List.mem_cons_of_mem x hq))]
    | some uid =>
      rw [save_step_some hx]
      rw [foldl_save_preserves rest _
        (fun q hq => hk q (List.mem_cons_of_mem x hq))
        (fun q hq => hWF q (List.mem_cons_of_mem x hq))]
      unfold save_game
      rw [alookup_ainsert_ne]
      rw [hWF x (List.mem_cons_self x rest)]
      exact fun e => hk x (List.mem_cons_self x rest) e.symm

theorem foldl_save_mem :
    ∀ (xs : List (Nat × (Game × Option Nat))) (d : List (Nat × Row))
      {c p : Nat} {g2 : Game},
      (∀ q ∈ xs, q.2.1.channel_id = q.1) → (xs.map Prod.fst).Nodup →
      (c, (g2, some p)) ∈ xs →
      alookup (xs.foldl save_step d) c = some (to_row g2)
  | [], d, c, p, g2, _, _, hmem => absurd hmem (List.not_mem_nil _)
  | x :: rest, d, c, p, g2, hWF, hnd, hmem => by
    rw [List.foldl_cons]
    rw [List.map_cons] at hnd
    have hnd2 := List.nodup_cons.mp hnd
    rcases List.mem_cons.mp hmem with rfl | hmrest
    · have hx : (c, (g2, some p)).2.2 = some p := rfl
      rw [save_step_some hx]
      have hkey : (c, (g2, some p)).2.1.channel_id = c :=
        hWF _ (List.mem_cons_self _ rest)
      have hrestkeys : ∀ q ∈ rest, q.1 ≠ c := by
        intro q hq he
        have hmm : q.1 ∈ List.map Prod.fst rest :=
          List.mem_map_of_mem Prod.fst hq
        exact hnd2.1 (by simpa [he] using hmm)
      rw [foldl_save_preserves rest _ hrestkeys
        (fun q hq => hWF q (List.mem_cons_of_mem _ hq))]
      unfold save_game
      rw [show ((c, (g2, some p)).2.1) = g2 from rfl] at hkey ⊢
      rw [hkey]
      exact alookup_ainsert_self _ _ _
    · exact foldl_save_mem rest _
        (fun q hq => hWF q (List.mem_cons_of_mem x hq)) hnd2.2 hmrest

theorem sweep_game_eval (now : Nat) (g : Game) :
    sweep_game now g =
      if g.status = "active" ∧ timeout_threshold < now - g.last_activity ∧
          (g.current_player).getD 0 ≠ 0
      then (g.timeout_current_player, g.current_player)
      else (g, none) := by
  unfold sweep_game
  by_cases hs : g.status = "active"
  · by_cases he : now - g.last_activity ≤ timeout_threshold
    · have hnl : ¬ timeout_threshold < now - g.last_activity := not_lt.mpr he
      simp [hs, he, hnl]
    · have hlt : timeout_threshold < now - g.last_activity := not_le.mp he
      cases hcp : g.current_player with
      | none => simp [hs, he, hlt, hcp]
      | some q =>
        by_cases hq : q = 0
        · simp [hs, he, hlt, hcp, hq]
        · simp [hs, he, hlt, hcp, hq]
  · simp [hs]

theorem timeout_current_player_channel_id (g : Game) :
    (g.timeout_current_player).channel_id = g.channel_id := by
  unfold Game.timeout_current_player
  split <;> rfl

theorem sweep_game_fst_channel_id (now : Nat) (g : Game) :
    (sweep_game now g).1.channel_id = g.channel_id := by
  rw [sweep_game_eval]
  split
  · exact timeout_current_player_channel_id g
  · rfl

theorem current_player_timeout_current_player (g : Game) :
    (g.timeout_current_player).current_player = none := by
  unfold Game.timeout_current_player Game.current_player
  by_cases hpar : g.current_turn % 2 = 0
  · by_cases hop : g.status = "open" <;> simp [hpar, hop]
  · by_cases hop : g.status = "open" <;> simp [hpar, hop]

theorem sweep_game_idem (now : Nat) (g : Game) :
    sweep_game now (sweep_game now g).1 = ((sweep_game now g).1, none) := by
  rw [sweep_game_eval now g]
  split_ifs with h
  · simp only
    rw [sweep_game_eval]
    rw [if_neg]
    intro h2
    rw [current_player_timeout_current_player g] at h2
    exact h2.2.2 rfl
  · simp only
    rw [sweep_game_eval]
    rw [if_neg h]

theorem foldl_erase_all_none :
    ∀ (xs : List (Nat × (Game × Option Nat))) (m : List (Nat × Nat)),
      (∀ q ∈ xs, q.2.2 = none) → xs.foldl erase_step m = m
  | [], m, _ => rfl
  | x :: rest, m, h => by
    rw [List.foldl_cons, erase_step_none (h x (List.mem_cons_self x rest))]
    exact foldl_erase_all_none rest m
      (fun q hq => h q (List.mem_cons_of_mem x hq))

theorem foldl_save_all_none :
    ∀ (xs : List (Nat × (Game × Option Nat))) (d : List (Nat × Row)),
      (∀ q ∈ xs, q.2.2 = none) → xs.foldl save_step d = d
  | [], d, _ => rfl
  | x :: rest, d, h => by
    rw [List.foldl_cons, save_step_none (h x (List.mem_cons_self x rest))]
    exact foldl_save_all_none rest d
      (fun q hq => h q (List.mem_cons_of_mem x hq))

theorem timeout_checker_idem (s : BotState) (now : Nat) :
    timeout_checker (timeout_checker s now) now = timeout_checker s now := by
  have hfix : ∀ q ∈ (timeout_checker s now).games,
      sweep_game now q.2 = (q.2, none) := by
    intro q hq
    have hgames : (timeout_checker s now).games =
        (s.games.map (fun p => (p.1, sweep_game now p.2))).map
          (fun p => (p.1, p.2.1)) := rfl
    rw [hgames, List.map_map] at hq
    rcases List.mem_map.mp hq with ⟨p, _, hpq⟩
    rw [← hpq]
    exact sweep_game_idem now p.2
  conv_lhs => rw [timeout_checker]
  have hmapped : (timeout_checker s now).games.map
        (fun p => (p.1, sweep_game now p.2)) =
      (timeout_checker s now).games.map
        (fun p : Nat × Game => (p.1, (p.2, (none : Option Nat)))) :=
    List.map_congr_left (fun q hq => by rw [hfix q hq])
  rw [hmapped]
  have hall : ∀ q ∈ (timeout_checker s now).games.map
      (fun p : Nat × Game => (p.1, (p.2, (none : Option Nat)))), q.2.2 = none := by
    intro q hq
    rcases List.mem_map.mp hq with ⟨p, _, hpq⟩
    rw [← hpq]
  have hgames2 : ((timeout_checker s now).games.map
      (fun p : Nat × Game => (p.1, (p.2, (none : Option Nat))))).map
        (fun p => (p.1, p.2.1)) = (timeout_checker s now).games := by
    rw [List.map_map]
    have hcomp : ((fun p : Nat × (Game × Option Nat) => (p.1, p.2.1)) ∘
        (fun p : Nat × Game => (p.1, (p.2, (none : Option Nat))))) = id :=
      funext fun p => rfl
    rw [hcomp, List.map_id]
  rw [foldl_erase_all_none _ _ hall, foldl_erase_all_none _ _ hall,
    foldl_save_all_none _ _ hall, hgames2]

theorem sweep_game_fst_of_some {now : Nat} {g : Game} {p : Nat}
    (h : (sweep_game now g).2 = some p) :
    (sweep_game now g).1 = g.timeout_current_player := by
  rw [sweep_game_eval] at h ⊢
  split_ifs at h ⊢ with hc
  rfl

theorem sweep_game_fst_of_none {now : Nat} {g : Game}
    (h : (sweep_game now g).2 = none) : (sweep_game now g).1 = g := by
  rw [sweep_game_eval] at h ⊢
  split_ifs at h ⊢ with hc
  · simp only at h
    rw [h] at hc
    exact absurd rfl hc.2.2
  · rfl

/-- C4: one timeout sweep mutates a session iff it is 'active', the elapsed
time since last_activity strictly exceeds the two-hour threshold, and the
current-turn occupant is non-vacant (a truthy identity); in that case it
vacates exactly the current-turn slot, persists the vacated session, and
removes the vacated identity from both router indices.  An already-vacant
current slot is skipped, 'pending'/'open'/'complete' sessions are never
mutated, and a second sweep at the same instant with no new activity is a
no-op. -/
theorem claim_C4 (s : BotState) (now c p : Nat) (g : Game)
    (hkeys : ∀ q ∈ s.games, q.2.channel_id = q.1)
    (hnodup : (s.games.map Prod.fst).Nodup) :
    (alookup (timeout_checker s now).games c =
      (alookup s.games c).map (fun g0 => (sweep_game now g0).1)) ∧
    ((sweep_game now g).2 = some p ↔
      (g.status = "active" ∧ timeout_threshold < now - g.last_activity ∧
        g.current_player = some p ∧ p ≠ 0)) ∧
    ((sweep_game now g).2 = some p →
      (sweep_game now g).1 = g.timeout_current_player) ∧
    ((sweep_game now g).2 = none → (sweep_game now g).1 = g) ∧
    (alookup s.games c = some g → (sweep_game now g).2 = some p →
      alookup (timeout_checker s now).player_games p = none ∧
      alookup (timeout_checker s now).pending_responses p = none ∧
      alookup (timeout_checker s now).db c =
        some (to_row g.timeout_current_player)) ∧
    timeout_checker (timeout_checker s now) now = timeout_checker s now := by
  refine ⟨?_, ?_, fun h => sweep_game_fst_of_some h,
    fun h => sweep_game_fst_of_none h, ?_, timeout_checker_idem s now⟩
  · show alookup ((s.games.map (fun q => (q.1, sweep_game now q.2))).map
      (fun q => (q.1, q.2.1))) c = _
    rw [List.map_map]
    have hcomp : ((fun q : Nat × (Game × Option Nat) => (q.1, q.2.1)) ∘
        (fun q : Nat × Game => (q.1, sweep_game now q.2))) =
        (fun q : Nat × Game => (q.1, (fun g0 => (sweep_game now g0).1) q.2)) :=
      funext fun q => rfl
    rw [hcomp]
    exact alookup_map_values s.games (fun g0 => (sweep_game now g0).1) c
  · rw [sweep_game_eval]
    split_ifs with hc
    · simp only
      constructor
      · intro hcp
        refine ⟨hc.1, hc.2.1, hcp, ?_⟩
        have := hc.2.2
        rw [hcp] at this
        simpa using this
      · exact fun hh => hh.2.2.1
    · constructor
      · intro hx
        exact absurd hx (by simp)
      · intro hh
        refine absurd ⟨hh.1, hh.2.1, ?_⟩ hc
        rw [hh.2.2.1]
        simpa using hh.2.2.2
  · intro hgc hact
    have hmem : (c, g) ∈ s.games := alookup_mem hgc
    have hsw : (c, sweep_game now g) ∈
        s.games.map (fun q => (q.1, sweep_game now q.2)) :=
      List.mem_map_of_mem _ hmem
    have hWF2 : ∀ q ∈ s.games.map (fun q => (q.1, sweep_game now q.2)),
        q.2.1.channel_id = q.1 := by
      intro q hq
      rcases List.mem_map.mp hq with ⟨r, hr, hrq⟩
      rw [← hrq]
      simp only
      rw [sweep_game_fst_channel_id]
      exact hkeys r hr
    have hnd2 : ((s.games.map (fun q => (q.1, sweep_game now q.2))).map
        Prod.fst).Nodup := by
      rw [List.map_map]
      have : (Prod.fst ∘ (fun q : Nat × Game => (q.1, sweep_game now q.2))) =
          Prod.fst := funext fun q => rfl
      rw [this]
      exact hnodup
    have hsg : sweep_game now g = (g.timeout_current_player, some p) :=
      Prod.ext (sweep_game_fst_of_some hact) hact
    rw [hsg] at hsw
    refine ⟨?_, ?_, ?_⟩
    · exact foldl_erase_some _ _ ⟨(c, (g.timeout_current_player, some p)),
        hsw, rfl⟩
    · exact foldl_erase_some _ _ ⟨(c, (g.timeout_current_player, some p)),
        hsw, rfl⟩
    · exact foldl_save_mem _ _ hWF2 hnd2 hsw

/-- Witness for C4: a two-player active session idle for 10000 seconds; the
sweep at that instant vacates the even-turn occupant (identity 10), persists
the vacancy, and unbinds identity 10 from both indices. -/
theorem claim_C4_witness :
    ((sweep_game 10000
      { channel_id := 1
        starter_id := 10
        first_words := "a b"
        words_per_turn := 2
        total_lines := 4
        contributions := ["a b", "c d"]
        contributors := [10, 20]
        player_a := some 10
        player_b := some 20
        status := "active"
        last_activity := 0
        current_turn := 2 }).2 = some 10) ∧
    alookup (timeout_checker
      { games := [(1,
          { channel_id := 1
            starter_id := 10
            first_words := "a b"
            words_per_turn := 2
            total_lines := 4
            contributions := ["a b", "c d"]
            contributors := [10, 20]
            player_a := some 10
            player_b := some 20
            status := "active"
            last_activity := 0
            current_turn := 2 })]
        player_games := [(10, 1), (20, 1)]
        pending_responses := [(10, 1)]
        db := [] } 10000).player_games 10 = none ∧
    alookup (timeout_checker
      { games := [(1,
          { channel_id := 1
            starter_id := 10
            first_words := "a b"
            words_per_turn := 2
            total_lines := 4
            contributions := ["a b", "c d"]
            contributors := [10, 20]
            player_a := some 10
            player_b := some 20
            status := "active"
            last_activity := 0
            current_turn := 2 })]
        player_games := [(10, 1), (20, 1)]
        pending_responses := [(10, 1)]
        db := [] } 10000).pending_responses 10 = none ∧
    alookup (timeout_checker
      { games := [(1,
          { channel_id := 1
            starter_id := 10
            first_words := "a b"
            words_per_turn := 2
            total_lines := 4
            contributions := ["a b", "c d"]
            contributors := [10, 20]
            player_a := some 10
            player_b := some 20
            status := "active"
            last_activity := 0
            current_turn := 2 })]
        player_games := [(10, 1), (20, 1)]
        pending_responses := [(10, 1)]
        db := [] } 10000).db 1 =
      some (to_row (Game.timeout_current_player
        { channel_id := 1
          starter_id := 10
          first_words := "a b"
          words_per_turn := 2
          total_lines := 4
          contributions := ["a b", "c d"]
          contributors := [10, 20]
          player_a := some 10
          player_b := some 20
          status := "active"
          last_activity := 0
          current_turn := 2 })) := by
  have h := claim_C4
    { games := [(1,
        { channel_id := 1
          starter_id := 10
          first_words := "a b"
          words_per_turn := 2
          total_lines := 4
          contributions := ["a b", "c d"]
          contributors := [10, 20]
          player_a := some 10
          player_b := some 20
          status := "active"
          last_activity := 0
          current_turn := 2 })]
      player_games := [(10, 1), (20, 1)]
      pending_responses := [(10, 1)]
      db := [] } 10000 1 10
    { channel_id := 1
      starter_id := 10
      first_words := "a b"
      words_per_turn := 2
      total_lines := 4
      contributions := ["a b", "c d"]
      contributors := [10, 20]
      player_a := some 10
      player_b := some 20
      status := "active"
      last_activity := 0
      current_turn := 2 }
    (by decide) (by decide)
  have hact : (sweep_game 10000
      { channel_id := 1
        starter_id := 10
        first_words := "a b"
        words_per_turn := 2
        total_lines := 4
        contributions := ["a b", "c d"]
        contributors := [10, 20]
        player_a := some 10
        player_b := some 20
        status := "active"
        last_activity := 0
        current_turn := 2 } : Game × Option Nat).2 = some 10 := by decide
  have heff := h.2.2.2.2.1 (by decide) hact
  exact ⟨hact, heff.1, heff.2.1, heff.2.2⟩

/-! ### Per-operation preservation of per-game predicates (claims C1, C5) -/

/-- A predicate holding of every live session. -/
def listP (P : Game → Prop) (l : List (Nat × Game)) : Prop :=
  ∀ q ∈ l, P q.2

theorem listP_post_completed_poem {P : Game → Prop} (env : Env) (s : BotState)
    (g : Game) (h : listP P s.games) :
    listP P (post_completed_poem env s g).games := by
  intro q hq
  rw [games_post_completed_poem] at hq
  by_cases hc : env.channelFound
  · rw [if_pos hc] at hq
    exact h q (mem_aerase hq)
  · rw [if_neg hc] at hq
    exact h q hq

theorem listP_prompt_next_player {P : Game → Prop} (env : Env) (s : BotState)
    (g : Game) (h : listP P s.games) :
    listP P (prompt_next_player env s g).games := by
  intro q hq
  rw [games_prompt_next_player] at hq
  exact h q hq

theorem listP_cmd_start {P : Game → Prop} (s : BotState) (u c : Nat)
    (words : Option String) (lines wordcount now : Nat)
    (h : listP P s.games)
    (hmk : ∀ w, P (Game.mk_new c u w wordcount lines now))
    (hpend : P { channel_id := c
                 starter_id := u
                 first_words := ""
                 words_per_turn := wordcount
                 total_lines := lines
                 contributions := []
                 contributors := []
                 player_a := some u
                 player_b := none
                 status := "pending"
                 last_activity := now
                 current_turn := 1 }) :
    listP P (cmd_start s u c words lines wordcount now).1.games := by
  unfold cmd_start
  by_cases h1 : (alookup s.player_games u).isSome
  · rw [if_pos h1]
    exact h
  · rw [if_neg h1]
    by_cases h2 : channel_busy s c = true
    · rw [if_pos h2]
      exact h
    · rw [if_neg h2]
      cases words with
      | none =>
        unfold start_pending_game
        exact forall_mem_ainsert h hpend
      | some w =>
        by_cases hw : w = ""
        · simp only [if_pos hw]
          unfold start_pending_game
          exact forall_mem_ainsert h hpend
        · simp only [if_neg hw]
          unfold start_open_game
          by_cases hcw : count_words w ≠ wordcount
          · rw [if_pos hcw]
            exact h
          · rw [if_neg hcw]
            exact forall_mem_ainsert h (hmk w)

theorem listP_cmd_join {P : Game → Prop} (env : Env) (s : BotState) (u c : Nat)
    (words : Option String) (now : Nat)
    (h : listP P s.games)
    (hassign : ∀ g, P g → ¬ g.status = "complete" → ¬ g.status = "pending" →
      P (join_assign_slot g u))
    (hadd : ∀ g w t, P g → P (g.add_contribution u w t)) :
    listP P (cmd_join env s u c words now).1.games := by
  cases hgc : alookup s.games c with
  | none =>
    unfold cmd_join
    simp only [hgc]
    exact h
  | some g =>
    have hPg : P g := h (c, g) (alookup_mem hgc)
    unfold cmd_join
    simp only [hgc]
    by_cases hc1 : g.status = "complete"
    · rw [if_pos hc1]
      exact h
    · rw [if_neg hc1]
      by_cases hc2 : g.status = "pending"
      · rw [if_pos hc2]
        exact h
      · rw [if_neg hc2]
        have hP1 : P (join_assign_slot g u) := hassign g hPg hc1 hc2
        by_cases hbe : bound_elsewhere s u c = true
        · rw [if_pos hbe]
          exact h
        · rw [if_neg hbe]
          by_cases hso : (!g.slot_is_open) = true
          · rw [if_pos hso]
            exact h
          · rw [if_neg hso]
            by_cases hop : (g.status = "open" ∧ g.player_a = some u)
            · rw [if_pos hop]
              exact h
            · rw [if_neg hop]
              cases words with
              | none =>
                unfold join_fill_no_words
                exact forall_mem_ainsert h hP1
              | some w =>
                by_cases hw : w = ""
                · simp only [if_pos hw]
                  unfold join_fill_no_words
                  exact forall_mem_ainsert h hP1
                · simp only [if_neg hw]
                  unfold join_with_words
                  by_cases hcw : count_words w ≠ g.words_per_turn
                  · rw [if_pos hcw]
                    exact h
                  · rw [if_neg hcw]
                    have hP2 : P ((join_assign_slot g u).add_contribution u w now) :=
                      hadd _ _ _ hP1
                    by_cases hcmp :
                        ((join_assign_slot g u).add_contribution u w now).status =
                          "complete"
                    · rw [if_pos hcmp]
                      exact listP_post_completed_poem env _ _
                        (forall_mem_ainsert h hP2)
                    · rw [if_neg hcmp]
                      exact listP_prompt_next_player env _ _
                        (forall_mem_ainsert h hP2)

theorem listP_on_message {P : Game → Prop} (env : Env) (s : BotState) (u : Nat)
    (content : String) (now : Nat)
    (h : listP P s.games)
    (hpend : ∀ g, P g → g.status = "pending" →
      P { g with first_words := py_strip content
                 contributions := [py_strip content]
                 contributors := [u]
                 status := "open"
                 last_activity := now })
    (hadd : ∀ g t, P g → P (g.add_contribution u (py_strip content) t)) :
    listP P (on_message env s u content now).1.games := by
  cases hm : alookup s.pending_responses u with
  | none =>
    unfold on_message
    simp only [hm]
    exact h
  | some c =>
    unfold on_message
    simp only [hm]
    cases hgc : alookup s.games c with
    | none =>
      simp only [hgc]
      exact h
    | some g =>
      have hPg : P g := h (c, g) (alookup_mem hgc)
      simp only [hgc]
      by_cases hcw : count_words (py_strip content) ≠ g.words_per_turn
      · rw [if_pos hcw]
        exact h
      · rw [if_neg hcw]
        by_cases hp : g.status = "pending"
        · rw [if_pos hp]
          exact forall_mem_ainsert h (hpend g hPg hp)
        · rw [if_neg hp]
          by_cases hcur : g.current_player ≠ some u
          · rw [if_pos hcur]
            exact h
          · rw [if_neg hcur]
            have hP2 : P (g.add_contribution u (py_strip content) now) :=
              hadd g now hPg
            by_cases hcmp :
                (g.add_contribution u (py_strip content) now).status = "complete"
            · rw [if_pos hcmp]
              exact listP_post_completed_poem env _ _
                (forall_mem_ainsert h hP2)
            · rw [if_neg hcmp]
              exact listP_prompt_next_player env _ _
                (forall_mem_ainsert h hP2)

theorem listP_cmd_abandon {P : Game → Prop} (s : BotState) (u : Nat)
    (h : listP P s.games)
    (hclear : ∀ g, P g →
      P { g with player_a := if g.player_a = some u then none else g.player_a
                 player_b := if g.player_b = some u then none else g.player_b }) :
    listP P (cmd_abandon s u).1.games := by
  cases hb : alookup s.player_games u with
  | none =>
    unfold cmd_abandon
    simp only [hb]
    exact h
  | some c =>
    unfold cmd_abandon
    simp only [hb]
    cases hgc : alookup s.games c with
    | none =>
      simp only [hgc]
      exact h
    | some g =>
      have hPg : P g := h (c, g) (alookup_mem hgc)
      simp only [hgc]
      exact forall_mem_ainsert h (hclear g hPg)

theorem listP_timeout_checker {P : Game → Prop} (s : BotState) (now : Nat)
    (h : listP P s.games)
    (hvac : ∀ g, P g → P g.timeout_current_player) :
    listP P (timeout_checker s now).games := by
  intro q hq
  have hgames : (timeout_checker s now).games =
      (s.games.map (fun p => (p.1, sweep_game now p.2))).map
        (fun p => (p.1, p.2.1)) := rfl
  rw [hgames, List.map_map] at hq
  rcases List.mem_map.mp hq with ⟨r, hr, hrq⟩
  have hPr : P r.2 := h r hr
  rw [← hrq]
  show P (sweep_game now r.2).1
  cases hs2 : (sweep_game now r.2).2 with
  | none =>
    rw [sweep_game_fst_of_none hs2]
    exact hPr
  | some p =>
    rw [sweep_game_fst_of_some hs2]
    exact hvac r.2 hPr

/-! ### Status/turn invariant (claim C1) -/

/-- `status == "complete"` iff `current_turn >= total_lines * 2`, for sessions
with positive `total_lines`. -/
def status_turn_inv (g : Game) : Prop :=
  0 < g.total_lines → (g.status = "complete" ↔ g.total_lines * 2 ≤ g.current_turn)

theorem status_turn_inv_mk_new (c u : Nat) (w : String) (wc lines now : Nat) :
    status_turn_inv (Game.mk_new c u w wc lines now) := by
  intro hL
  constructor
  · intro hst
    have hst2 : "open" = "complete" := hst
    exact absurd hst2 (by decide)
  · intro hle
    exfalso
    have hL2 : 0 < lines := hL
    have hle2 : lines * 2 ≤ 1 := hle
    omega

theorem status_turn_inv_pending (c u wc lines now : Nat) :
    status_turn_inv
      { channel_id := c
        starter_id := u
        first_words := ""
        words_per_turn := wc
        total_lines := lines
        contributions := []
        contributors := []
        player_a := some u
        player_b := none
        status := "pending"
        last_activity := now
        current_turn := 1 } := by
  intro hL
  constructor
  · intro hst
    have hst2 : "pending" = "complete" := hst
    exact absurd hst2 (by decide)
  · intro hle
    exfalso
    have hL2 : 0 < lines := hL
    have hle2 : lines * 2 ≤ 1 := hle
    omega

theorem status_turn_inv_add (g : Game) (u : Nat) (w : String) (t : Nat)
    (h : status_turn_inv g) : status_turn_inv (g.add_contribution u w t) := by
  rw [add_contribution_eval]
  by_cases hcmp : g.total_lines * 2 ≤ g.current_turn + 1
  · rw [if_pos hcmp]
    intro hL
    exact ⟨fun _ => hcmp, fun _ => rfl⟩
  · rw [if_neg hcmp]
    intro hL
    have hnc : ¬ (g.status = "complete") := by
      intro hcpl
      have := (h hL).mp hcpl
      omega
    constructor
    · intro hst
      exact absurd hst hnc
    · intro hle
      exact absurd hle hcmp

theorem status_turn_inv_assign (g : Game) (u : Nat) (h : status_turn_inv g)
    (hc1 : ¬ g.status = "complete") :
    status_turn_inv (join_assign_slot g u) := by
  unfold join_assign_slot
  by_cases hop : g.status = "open"
  · rw [if_pos hop]
    intro hL
    constructor
    · intro hst
      have hst2 : "active" = "complete" := hst
      exact absurd hst2 (by decide)
    · intro hle
      exact absurd ((h hL).mpr hle) hc1
  · rw [if_neg hop]
    by_cases hpar : g.current_turn % 2 = 0
    · rw [if_pos hpar]
      exact h
    · rw [if_neg hpar]
      exact h

theorem status_turn_inv_pending_update (g : Game) (u : Nat) (w : String)
    (t : Nat) (h : status_turn_inv g) (hp : g.status = "pending") :
    status_turn_inv
      { g with first_words := w
               contributions := [w]
               contributors := [u]
               status := "open"
               last_activity := t } := by
  intro hL
  constructor
  · intro hst
    have hst2 : "open" = "complete" := hst
    exact absurd hst2 (by decide)
  · intro hle
    exfalso
    have hc := (h hL).mpr hle
    rw [hp] at hc
    exact absurd hc (by decide)

theorem status_turn_inv_vacate (g : Game) (h : status_turn_inv g) :
    status_turn_inv g.timeout_current_player := by
  unfold Game.timeout_current_player
  split
  · exact h
  · exact h

/-- C1: every operation preserves the invariant that, for sessions with
positive `total_lines`, `status = "complete"` iff
`total_lines * 2 ≤ current_turn`; and `add_contribution` (the only place a
session is marked complete) sets 'complete' exactly when the incremented turn
reaches `total_turns`. -/
theorem claim_C1 (env : Env) (s : BotState) (u c : Nat)
    (words : Option String) (content : String) (lines wordcount now : Nat)
    (h : listP status_turn_inv s.games) :
    listP status_turn_inv (cmd_start s u c words lines wordcount now).1.games ∧
    listP status_turn_inv (cmd_join env s u c words now).1.games ∧
    listP status_turn_inv (on_message env s u content now).1.games ∧
    listP status_turn_inv (cmd_abandon s u).1.games ∧
    listP status_turn_inv (timeout_checker s now).games ∧
    (∀ g : Game, ¬ g.status = "complete" → ∀ uid t : Nat, ∀ w2 : String,
      ((g.add_contribution uid w2 t).status = "complete" ↔
        g.total_lines * 2 ≤ g.current_turn + 1)) := by
  refine ⟨listP_cmd_start s u c words lines wordcount now h
      (fun w => status_turn_inv_mk_new c u w wordcount lines now)
      (status_turn_inv_pending c u wordcount lines now),
    listP_cmd_join env s u c words now h
      (fun g hg h1 h2 => status_turn_inv_assign g u hg h1)
      (fun g w t hg => status_turn_inv_add g u w t hg),
    listP_on_message env s u content now h
      (fun g hg hp =>
        status_turn_inv_pending_update g u (py_strip content) now hg hp)
      (fun g t hg => status_turn_inv_add g u (py_strip content) t hg),
    listP_cmd_abandon s u h (fun g hg => hg),
    listP_timeout_checker s now h (fun g hg => status_turn_inv_vacate g hg),
    ?_⟩
  intro g hnc uid t w2
  rw [add_contribution_eval]
  by_cases hcmp : g.total_lines * 2 ≤ g.current_turn + 1
  · rw [if_pos hcmp]
    exact ⟨fun _ => hcmp, fun _ => rfl⟩
  · rw [if_neg hcmp]
    exact ⟨fun hst => absurd hst hnc, fun hle => absurd hle hcmp⟩

/-- Witness for C1 at the empty state: a fresh two-line session created by
`cmd_start` satisfies the invariant. -/
theorem claim_C1_witness :
    listP status_turn_inv
      (cmd_start
        { games := [], player_games := [], pending_responses := [], db := [] }
        7 1 (some "a b") 2 2 5).1.games :=
  (claim_C1 { channelFound := true, userFound := true }
    { games := [], player_games := [], pending_responses := [], db := [] }
    7 1 (some "a b") "c d" 2 2 5
    (fun q hq => absurd hq (List.not_mem_nil q))).1

/-! ### Parallel contributions/contributors invariant (claim C5) -/

/-- `len(contributions) == len(contributors)`. -/
def len_inv (g : Game) : Prop :=
  g.contributions.length = g.contributors.length

theorem len_inv_mk_new (c u : Nat) (w : String) (wc lines now : Nat) :
    len_inv (Game.mk_new c u w wc lines now) := rfl

theorem len_inv_add (g : Game) (u : Nat) (w : String) (t : Nat)
    (h : len_inv g) : len_inv (g.add_contribution u w t) := by
  rw [add_contribution_eval]
  by_cases hcmp : g.total_lines * 2 ≤ g.current_turn + 1
  · rw [if_pos hcmp]
    show (g.contributions ++ [w]).length = (g.contributors ++ [u]).length
    simp [len_inv] at h
    simp [h]
  · rw [if_neg hcmp]
    show (g.contributions ++ [w]).length = (g.contributors ++ [u]).length
    simp [len_inv] at h
    simp [h]

theorem len_inv_assign (g : Game) (u : Nat) (h : len_inv g) :
    len_inv (join_assign_slot g u) := by
  unfold join_assign_slot
  split
  · exact h
  · split
    · exact h
    · exact h

theorem len_inv_vacate (g : Game) (h : len_inv g) :
    len_inv g.timeout_current_player := by
  unfold Game.timeout_current_player
  split
  · exact h
  · exact h

theorem add_contribution_zip (g : Game) (u : Nat) (w : String) (t : Nat)
    (h : g.contributions.length = g.contributors.length) :
    (g.add_contribution u w t).contributions.zip
        (g.add_contribution u w t).contributors =
      g.contributions.zip g.contributors ++ [(w, u)] := by
  rw [add_contribution_eval]
  by_cases hcmp : g.total_lines * 2 ≤ g.current_turn + 1
  · rw [if_pos hcmp]
    show (g.contributions ++ [w]).zip (g.contributors ++ [u]) = _
    rw [List.zip_append h]
    rfl
  · rw [if_neg hcmp]
    show (g.contributions ++ [w]).zip (g.contributors ++ [u]) = _
    rw [List.zip_append h]
    rfl

/-- C5: every operation preserves `len(contributions) = len(contributors)`;
moreover the parallel correspondence is attribution-correct: an accepted
contribution appends exactly the pair (text, contributing identity), a fresh
session's parallel lists are the single pair (first words, starter), and the
pending-words submission installs the single pair (words, sender). -/
theorem claim_C5 (env : Env) (s : BotState) (u c : Nat)
    (words : Option String) (content : String) (lines wordcount now : Nat)
    (h : listP len_inv s.games) :
    listP len_inv (cmd_start s u c words lines wordcount now).1.games ∧
    listP len_inv (cmd_join env s u c words now).1.games ∧
    listP len_inv (on_message env s u content now).1.games ∧
    listP len_inv (cmd_abandon s u).1.games ∧
    listP len_inv (timeout_checker s now).games ∧
    (∀ g : Game, ∀ uid t : Nat, ∀ w2 : String,
      g.contributions.length = g.contributors.length →
      (g.add_contribution uid w2 t).contributions.zip
          (g.add_contribution uid w2 t).contributors =
        g.contributions.zip g.contributors ++ [(w2, uid)]) ∧
    (∀ w2 : String,
      (Game.mk_new c u w2 wordcount lines now).contributions.zip
        (Game.mk_new c u w2 wordcount lines now).contributors = [(w2, u)]) ∧
    (∀ g : Game, ∀ w2 : String,
      ({ g with first_words := w2
                contributions := [w2]
                contributors := [u]
                status := "open"
                last_activity := now } : Game).contributions.zip
        ({ g with first_words := w2
                  contributions := [w2]
                  contributors := [u]
                  status := "open"
                  last_activity := now } : Game).contributors = [(w2, u)]) := by
  refine ⟨listP_cmd_start s u c words lines wordcount now h
      (fun w => len_inv_mk_new c u w wordcount lines now)
      rfl,
    listP_cmd_join env s u c words now h
      (fun g hg _ _ => len_inv_assign g u hg)
      (fun g w t hg => len_inv_add g u w t hg),
    listP_on_message env s u content now h
      (fun g hg _ => rfl)
      (fun g t hg => len_inv_add g u (py_strip content) t hg),
    listP_cmd_abandon s u h (fun g hg => hg),
    listP_timeout_checker s now h (fun g hg => len_inv_vacate g hg),
    fun g uid t w2 hlen => add_contribution_zip g uid w2 t hlen,
    fun w2 => rfl,
    fun g w2 => rfl⟩

/-- Witness for C5 at the empty state: a fresh session created by `cmd_start`
keeps the parallel lists aligned. -/
theorem claim_C5_witness :
    listP len_inv
      (cmd_start
        { games := [], player_games := [], pending_responses := [], db := [] }
        7 1 (some "a b") 2 2 5).1.games :=
  (claim_C5 { channelFound := true, userFound := true }
    { games := [], player_games := [], pending_responses := [], db := [] }
    7 1 (some "a b") "c d" 2 2 5
    (fun q hq => absurd hq (List.not_mem_nil q))).1

end ExquisiteCorpse
